import Mathlib

/-!
Shallow embedding of the Sensor-Driven Depot HIL Simulator
(src/simulation/sensors.py, src/simulation/vehicles.py,
src/control/depot_controller.py, src/simulation/engine.py,
src/database/models.py) together with theorems settling the
specification claims about it.

Conventions of the embedding:
* Python `str` values are modelled by Lean `String`; the string
  operations the code uses (`startswith`, `split("_")`, `int(...)`,
  `str(n)` in f-strings) are modelled by executable functions on the
  underlying character list, defined below.
* Python dicts (insertion ordered) are modelled by association lists
  `List (κ × ν)`; `alookup` / `aset` model `d[k]` / `d[k] = v`
  (update in place when the key exists, append otherwise, exactly the
  Python insertion-order behaviour).
* Python floats (charge levels, rates, power) are modelled by `ℚ`;
  the claims proved about them (monotonicity, bounds) are preserved by
  this idealization.
* Randomness (`random.random()` draws, `uuid` identifiers) is made
  explicit: every stochastic draw is an input of the corresponding
  function, vehicle identifiers are generated deterministically from
  the step counter (they only need to be opaque distinct keys).
* Code that can raise an exception (`int(...)` on a malformed sensor
  name) is modelled in the `Except Unit` monad.
-/

set_option maxHeartbeats 1000000

namespace DepotHIL

/-! ### Decimal strings: models of Python `str(n)` and `int(s)` -/

/-- Decimal digit to character, models the rendering of a digit in
Python `str(n)`. -/
def digitChar (d : Nat) : Char :=
  match d with
  | 0 => '0' | 1 => '1' | 2 => '2' | 3 => '3' | 4 => '4'
  | 5 => '5' | 6 => '6' | 7 => '7' | 8 => '8' | _ => '9'

/-- Character to decimal digit; `none` on a non-digit.  Models the
per-character acceptance of Python `int(s)` on plain digit strings. -/
def charDigit? (c : Char) : Option Nat :=
  if '0' ≤ c ∧ c ≤ '9' then some (c.toNat - 48) else none

/-- Least-significant-first decimal digits of `n`, with explicit fuel
so the definition is structural (the fuel `n` always suffices). -/
def natDigitsRevFuel : Nat → Nat → List Nat
  | 0, _ => []
  | _ + 1, 0 => []
  | fuel + 1, n + 1 => ((n + 1) % 10) :: natDigitsRevFuel fuel ((n + 1) / 10)

def natDigitsRev (n : Nat) : List Nat := natDigitsRevFuel n n

/-- Model of Python `str(n)` for a natural number, as a character list. -/
def natChars (n : Nat) : List Char :=
  if n = 0 then ['0'] else ((natDigitsRev n).reverse.map digitChar)

/-- Model of Python `str(n)` (used by the f-strings building sensor
names and action targets). -/
def natToStr (n : Nat) : String := ⟨natChars n⟩

/-- Accumulator loop of the decimal parser. -/
def parseDigitsAux : List Char → Nat → Option Nat
  | [], acc => some acc
  | c :: cs, acc =>
    match charDigit? c with
    | some d => parseDigitsAux cs (acc * 10 + d)
    | none => none

/-- Model of Python `int(s)` on the strings reaching it in this code
base (fields of a `split("_")`, hence underscore- and sign-free):
succeeds exactly on nonempty all-digit strings. -/
def strToNat? : List Char → Option Nat
  | [] => none
  | c :: cs => parseDigitsAux (c :: cs) 0

/-- Model of Python `s.startswith(p)`. -/
def pyStartsWith : List Char → List Char → Bool
  | _, [] => true
  | [], _ :: _ => false
  | c :: cs, p :: ps => c == p && pyStartsWith cs ps

/-- Model of Python `s.split(sep)` for a one-character separator. -/
def splitChars (sep : Char) : List Char → List (List Char)
  | [] => [[]]
  | c :: cs =>
    let r := splitChars sep cs
    if c = sep then [] :: r
    else
      match r with
      | [] => [[c]]
      | g :: gs => (c :: g) :: gs

/-- Value of a least-significant-first digit list. -/
def digitsVal (l : List Nat) : Nat := l.foldr (fun d acc => acc * 10 + d) 0

/-- Equality on `Except` results is decidable (needed to state closed
facts about runs that may raise). -/
instance {ε α : Type} [DecidableEq ε] [DecidableEq α] : DecidableEq (Except ε α) := by
  intro x y
  cases x <;> cases y
  case error.error a b =>
    exact if h : a = b then Decidable.isTrue (by rw [h])
      else Decidable.isFalse (by intro hc; injection hc; exact h (by assumption))
  case error.ok a b => exact Decidable.isFalse (by intro hc; injection hc)
  case ok.error a b => exact Decidable.isFalse (by intro hc; injection hc)
  case ok.ok a b =>
    exact if h : a = b then Decidable.isTrue (by rw [h])
      else Decidable.isFalse (by intro hc; injection hc; exact h (by assumption))

/-! ### Association lists: model of Python dicts -/

/-- `d[k]` as a total lookup: `some v` when the key is present. -/
def alookup {κ ν : Type} [DecidableEq κ] : List (κ × ν) → κ → Option ν
  | [], _ => none
  | (k, v) :: rest, key => if k = key then some v else alookup rest key

/-- `d[k] = v`: update in place when the key is present, append
otherwise (Python dicts keep insertion order). -/
def aset {κ ν : Type} [DecidableEq κ] : List (κ × ν) → κ → ν → List (κ × ν)
  | [], key, val => [(key, val)]
  | (k, v) :: rest, key, val =>
    if k = key then (k, val) :: rest else (k, v) :: aset rest key val

/-- `del d[k]`. -/
def adel {κ ν : Type} [DecidableEq κ] : List (κ × ν) → κ → List (κ × ν)
  | [], _ => []
  | (k, v) :: rest, key => if k = key then rest else (k, v) :: adel rest key

/-! ### Data model (src/database/models.py, src/simulation/vehicles.py) -/

/-- Kernel-executable rational addition.  Batteries marks `Rat.add`
`@[irreducible]`, which blocks `decide` on concrete runs; this is the
same function (`qadd_eq`), used inside the embedding so that closed
executions evaluate. -/
def qadd (a b : ℚ) : ℚ := mkRat (a.num * b.den + b.num * a.den) (a.den * b.den)

/-- `VehicleState` enum from src/database/models.py. -/
inductive VehicleState where
  | approaching | waiting | entering | parking | charging | exiting | departed
deriving DecidableEq, Repr

/-- `Vehicle` dataclass from src/simulation/vehicles.py.  `charge_level`
and `target_charge` are floats in the source, modelled by `ℚ`. -/
structure Vehicle where
  vehicle_id : String
  state : VehicleState
  assigned_spot : Option Nat
  assigned_charger : Option Nat
  charge_level : ℚ
  target_charge : ℚ
  arrival_time : Nat
  departure_time : Option Nat
deriving DecidableEq, Repr

/-- `Vehicle.create_new`: fresh vehicle in state APPROACHING with
charge 0.2 and target 0.8.  The uuid-based id is an explicit argument
(it is only an opaque key). -/
def Vehicle.create_new (vid : String) (arrival_time : Nat) : Vehicle :=
  { vehicle_id := vid
    state := VehicleState.approaching
    assigned_spot := none
    assigned_charger := none
    charge_level := mkRat 2 10
    target_charge := mkRat 8 10
    arrival_time := arrival_time
    departure_time := none }

/-- `Vehicle.is_charging_complete`. -/
def Vehicle.is_charging_complete (v : Vehicle) : Bool :=
  decide (v.target_charge ≤ v.charge_level)

/-- `Vehicle.update_charge` (charge_rate defaults to 0.05 at the call
site in `update_all_vehicles`). -/
def Vehicle.update_charge (v : Vehicle) (charge_rate : ℚ) : Vehicle :=
  if v.state = VehicleState.charging then
    { v with charge_level := min 1 (qadd v.charge_level charge_rate) }
  else v

/-- `Vehicle.can_depart`. -/
def Vehicle.can_depart (v : Vehicle) : Bool :=
  decide (v.state = VehicleState.charging) && v.is_charging_complete

/-- `VehicleManager` from src/simulation/vehicles.py: insertion-ordered
dict of vehicles keyed by id, and the spot claim map
`vehicle_positions : spot_id -> Optional[vehicle_id]` (both start empty). -/
structure VehicleManager where
  vehicles : List (String × Vehicle)
  vehicle_positions : List (Nat × Option String)
deriving DecidableEq, Repr

def VehicleManager.empty : VehicleManager :=
  { vehicles := [], vehicle_positions := [] }

/-- `VehicleManager.add_vehicle`. -/
def VehicleManager.add_vehicle (m : VehicleManager) (v : Vehicle) : VehicleManager :=
  { m with vehicles := aset m.vehicles v.vehicle_id v }

/-- `VehicleManager.remove_vehicle`. -/
def VehicleManager.remove_vehicle (m : VehicleManager) (vid : String) : VehicleManager :=
  match alookup m.vehicles vid with
  | none => m
  | some v =>
    let pos1 :=
      match v.assigned_spot with
      | some s => aset m.vehicle_positions s none
      | none => m.vehicle_positions
    { vehicles := adel m.vehicles vid, vehicle_positions := pos1 }

/-- `VehicleManager.assign_spot`: refuses when the spot is occupied in
`vehicle_positions` or the vehicle is unknown; otherwise frees the
vehicle's previous spot and records the new claim.  Returns the Python
boolean result together with the updated manager. -/
def VehicleManager.assign_spot (m : VehicleManager) (vid : String) (spot_id : Nat) :
    Bool × VehicleManager :=
  match alookup m.vehicle_positions spot_id with
  | some (some _) => (false, m)
  | _ =>
    match alookup m.vehicles vid with
    | none => (false, m)
    | some v =>
      let pos1 :=
        match v.assigned_spot with
        | some prev => aset m.vehicle_positions prev none
        | none => m.vehicle_positions
      let v1 := { v with assigned_spot := some spot_id }
      (true,
        { vehicles := aset m.vehicles vid v1
          vehicle_positions := aset pos1 spot_id (some vid) })

/-- `VehicleManager.free_spot`: only acts when the spot key is present;
clears the claiming vehicle's `assigned_spot` when it is a registered,
non-empty id, then blanks the position entry. -/
def VehicleManager.free_spot (m : VehicleManager) (spot_id : Nat) : VehicleManager :=
  match alookup m.vehicle_positions spot_id with
  | none => m
  | some vidOpt =>
    let m1 :=
      match vidOpt with
      | some vid =>
        if vid ≠ "" then
          match alookup m.vehicles vid with
          | some v =>
            { m with vehicles := aset m.vehicles vid { v with assigned_spot := none } }
          | none => m
        else m
      | none => m
    { m1 with vehicle_positions := aset m1.vehicle_positions spot_id none }

/-- `VehicleManager.get_vehicles_by_state`. -/
def VehicleManager.get_vehicles_by_state (m : VehicleManager) (s : VehicleState) :
    List Vehicle :=
  (m.vehicles.map Prod.snd).filter (fun v => v.state = s)

/-- `VehicleManager.update_all_vehicles` (charge_rate defaulted 0.05). -/
def VehicleManager.update_all_vehicles (m : VehicleManager) : VehicleManager :=
  { m with vehicles := m.vehicles.map (fun p => (p.1, p.2.update_charge (mkRat 5 100))) }

/-- `VehicleManager.detect_occupancy_conflicts`: spots claimed by more
than one vehicle via the vehicles' `assigned_spot` fields. -/
def VehicleManager.detect_occupancy_conflicts (m : VehicleManager) :
    List (Nat × List String) :=
  let spot_claims :=
    m.vehicles.foldl
      (fun (claims : List (Nat × List String)) p =>
        match p.2.assigned_spot with
        | some s =>
          match alookup claims s with
          | some ids => aset claims s (ids ++ [p.2.vehicle_id])
          | none => aset claims s [p.2.vehicle_id]
        | none => claims)
      []
  spot_claims.filter (fun p => 1 < p.2.length)

/-! ### Sensors (src/simulation/sensors.py)

Each `read()` makes one stochastic draw (`random.random() < rate`);
the embedding takes the boolean outcome of that draw as an explicit
argument. -/

inductive SensorType where
  | gate | occupancy | charger
deriving DecidableEq, Repr

/-- The `"connected"/"charging"/"power_kw"/"failed"` status dict of a
charger; fields are `Option` because the controller's initial status
dicts lack the `power_kw` and `failed` keys and read them through
`.get(key, default)`. -/
structure ChargerDict where
  connected : Option Bool
  charging : Option Bool
  power_kw : Option ℚ
  failed : Option Bool
deriving DecidableEq, Repr

def ChargerDict.emptyDict : ChargerDict :=
  { connected := none, charging := none, power_kw := none, failed := none }

/-- `reading.value`: a boolean for gate/occupancy sensors, a status
dict for chargers. -/
inductive SensorValue where
  | vbool : Bool → SensorValue
  | vdict : ChargerDict → SensorValue
deriving DecidableEq, Repr

/-- Python truthiness of a stored reading value.  The only dicts that
occur are the (non-empty, hence truthy) charger status dicts. -/
def SensorValue.truthy : SensorValue → Bool
  | .vbool b => b
  | .vdict _ => true

/-- `SensorReading` dataclass from src/simulation/sensors.py. -/
structure SensorReadingS where
  sensor_name : String
  sensor_type : SensorType
  value : SensorValue
  is_fault : Bool
  noise_level : ℚ
deriving DecidableEq, Repr

/-- `GateSensor` internal state. -/
structure GateSensorSt where
  gate_id : Nat
  is_open : Bool
  is_failed : Bool
deriving DecidableEq, Repr

/-- `GateSensor.read`; `failDraw` is the outcome of
`random.random() < self.failure_rate`. -/
def GateSensorSt.read (s : GateSensorSt) (failDraw : Bool) :
    GateSensorSt × SensorReadingS :=
  let s1 := if failDraw then { s with is_failed := true } else s
  (s1,
    { sensor_name := "gate_" ++ natToStr s.gate_id
      sensor_type := SensorType.gate
      value := SensorValue.vbool (s1.is_open && !s1.is_failed)
      is_fault := s1.is_failed
      noise_level := 0 })

/-- `GateSensor.set_state`: ignored once the sensor has failed. -/
def GateSensorSt.set_state (s : GateSensorSt) (is_open : Bool) : GateSensorSt :=
  if s.is_failed then s else { s with is_open := is_open }

/-- `OccupancySensor` internal state. -/
structure OccupancySensorSt where
  spot_id : Nat
  is_occupied : Bool
  noise_rate : ℚ
deriving DecidableEq, Repr

/-- `OccupancySensor.read`; `noiseDraw` is the outcome of
`random.random() < self.noise_rate`: the reported value flips, the
internal truth is unaffected. -/
def OccupancySensorSt.read (s : OccupancySensorSt) (noiseDraw : Bool) :
    OccupancySensorSt × SensorReadingS :=
  (s,
    { sensor_name := "spot_" ++ natToStr s.spot_id
      sensor_type := SensorType.occupancy
      value := SensorValue.vbool (if noiseDraw then !s.is_occupied else s.is_occupied)
      is_fault := noiseDraw
      noise_level := s.noise_rate })

/-- `ChargerSensor` internal state. -/
structure ChargerSensorSt where
  charger_id : Nat
  is_connected : Bool
  is_charging : Bool
  is_failed : Bool
  power_output : ℚ
deriving DecidableEq, Repr

/-- `ChargerSensor.read`; a positive failure draw permanently sets
`is_failed` and zeroes charging/power before the status is built. -/
def ChargerSensorSt.read (s : ChargerSensorSt) (failDraw : Bool) :
    ChargerSensorSt × SensorReadingS :=
  let s1 :=
    if failDraw then
      { s with is_failed := true, is_charging := false, power_output := 0 }
    else s
  (s1,
    { sensor_name := "charger_" ++ natToStr s.charger_id
      sensor_type := SensorType.charger
      value := SensorValue.vdict
        { connected := some s1.is_connected
          charging := some (s1.is_charging && !s1.is_failed)
          power_kw := some (if s1.is_failed then 0 else s1.power_output)
          failed := some s1.is_failed }
      is_fault := s1.is_failed
      noise_level := 0 })

def ChargerSensorSt.connect_vehicle (s : ChargerSensorSt) : ChargerSensorSt :=
  { s with is_connected := true }

def ChargerSensorSt.disconnect_vehicle (s : ChargerSensorSt) : ChargerSensorSt :=
  { s with is_connected := false, is_charging := false, power_output := 0 }

def ChargerSensorSt.start_charging (s : ChargerSensorSt) (power_kw : ℚ) : ChargerSensorSt :=
  if !s.is_failed && s.is_connected then
    { s with is_charging := true, power_output := power_kw }
  else s

def ChargerSensorSt.stop_charging (s : ChargerSensorSt) : ChargerSensorSt :=
  { s with is_charging := false, power_output := 0 }

/-- Every operation the source can perform on a `GateSensor`:
its two methods plus `SensorNetwork.inject_fault` /
`engine._inject_failures` (both of which just set `is_failed = True`). -/
inductive GateOp where
  | read (failDraw : Bool)
  | setState (is_open : Bool)
  | injectFault
deriving DecidableEq, Repr

def GateSensorSt.applyOp (s : GateSensorSt) : GateOp → GateSensorSt
  | .read d => (s.read d).1
  | .setState b => s.set_state b
  | .injectFault => { s with is_failed := true }

def GateSensorSt.applyOps (s : GateSensorSt) : List GateOp → GateSensorSt
  | [] => s
  | op :: ops => (s.applyOp op).applyOps ops

/-- Every operation the source can perform on a `ChargerSensor`. -/
inductive ChargerOp where
  | read (failDraw : Bool)
  | connect
  | disconnect
  | startCharging (power_kw : ℚ)
  | stopCharging
  | injectFault
deriving DecidableEq, Repr

def ChargerSensorSt.applyOp (s : ChargerSensorSt) : ChargerOp → ChargerSensorSt
  | .read d => (s.read d).1
  | .connect => s.connect_vehicle
  | .disconnect => s.disconnect_vehicle
  | .startCharging p => s.start_charging p
  | .stopCharging => s.stop_charging
  | .injectFault => { s with is_failed := true }

def ChargerSensorSt.applyOps (s : ChargerSensorSt) : List ChargerOp → ChargerSensorSt
  | [] => s
  | op :: ops => (s.applyOp op).applyOps ops

/-- `SensorNetwork`: the three dicts of sensors, keys `0..n-1`. -/
structure SensorNetworkS where
  gates : List (Nat × GateSensorSt)
  occupancy_sensors : List (Nat × OccupancySensorSt)
  chargers : List (Nat × ChargerSensorSt)
deriving DecidableEq, Repr

/-- `SensorNetwork.__init__` (the per-sensor failure/noise rates only
feed the stochastic draws, which are explicit inputs here). -/
def SensorNetworkS.init (num_gates num_spots num_chargers : Nat) (noise : ℚ) :
    SensorNetworkS :=
  { gates := (List.range num_gates).map
      (fun i => (i, { gate_id := i, is_open := false, is_failed := false }))
    occupancy_sensors := (List.range num_spots).map
      (fun i => (i, { spot_id := i, is_occupied := false, noise_rate := noise }))
    chargers := (List.range num_chargers).map
      (fun i => (i, { charger_id := i, is_connected := false, is_charging := false,
                      is_failed := false, power_output := 0 })) }

/-- Per-step outcomes of all the stochastic draws `run_step` makes:
the uniform arrival draw and, per sensor id, the outcome of its
failure/noise draw. -/
structure StepDraws where
  arrival : ℚ
  gateFail : Nat → Bool
  spotNoise : Nat → Bool
  chargerFail : Nat → Bool

/-- `SensorNetwork.read_all_sensors`: reads every sensor (mutating it)
and returns the name-keyed readings, gates first, then spots, then
chargers. -/
def SensorNetworkS.read_all_sensors (net : SensorNetworkS) (d : StepDraws) :
    SensorNetworkS × List (String × SensorReadingS) :=
  let gr := net.gates.map (fun p => (p.1, (p.2.read (d.gateFail p.1))))
  let sr := net.occupancy_sensors.map (fun p => (p.1, (p.2.read (d.spotNoise p.1))))
  let cr := net.chargers.map (fun p => (p.1, (p.2.read (d.chargerFail p.1))))
  ({ gates := gr.map (fun p => (p.1, p.2.1))
     occupancy_sensors := sr.map (fun p => (p.1, p.2.1))
     chargers := cr.map (fun p => (p.1, p.2.1)) },
   gr.map (fun p => (p.2.2.sensor_name, p.2.2))
     ++ sr.map (fun p => (p.2.2.sensor_name, p.2.2))
     ++ cr.map (fun p => (p.2.2.sensor_name, p.2.2)))

/-! ### Depot controller (src/control/depot_controller.py) -/

/-- `ControlAction` record.  The random `action_id` (uuid4) is dropped
and the `step_id = f"step_{n}"` string is kept as the step number. -/
structure ControlAction where
  step : Nat
  controller : String
  action_type : String
  target : String
  command : String
  success : Bool
deriving DecidableEq, Repr

/-- `DepotController._create_action`. -/
def createAction (controller action_type target command : String) (step : Nat) :
    ControlAction :=
  { step := step, controller := controller, action_type := action_type,
    target := target, command := command, success := true }

/-- `DepotState` dataclass: the controller's folded view of the depot.
`gate_states` and `spot_occupancy` store the raw reading values the
update loop writes into them (booleans in every well-typed run);
Python truthiness is applied at the use sites. -/
structure DepotState where
  available_spots : List Nat
  available_chargers : List Nat
  gate_states : List (Nat × SensorValue)
  spot_occupancy : List (Nat × SensorValue)
  charger_status : List (Nat × ChargerDict)
deriving DecidableEq, Repr

structure DepotController where
  num_gates : Nat
  num_spots : Nat
  num_chargers : Nat
  depot_state : DepotState
deriving DecidableEq, Repr

/-- `DepotController.__init__`: note the initial charger status dicts
carry only the `connected` and `charging` keys. -/
def DepotController.init (num_gates num_spots num_chargers : Nat) : DepotController :=
  { num_gates := num_gates
    num_spots := num_spots
    num_chargers := num_chargers
    depot_state :=
      { available_spots := List.range num_spots
        available_chargers := List.range num_chargers
        gate_states := (List.range num_gates).map (fun i => (i, SensorValue.vbool false))
        spot_occupancy := (List.range num_spots).map (fun i => (i, SensorValue.vbool false))
        charger_status := (List.range num_chargers).map
          (fun i => (i, { connected := some false, charging := some false,
                          power_kw := none, failed := none })) } }

/-- Dict indexing `depot_state.gate_states[g]` etc.  In the source a
missing key would raise `KeyError`; in every state the pipeline builds,
the keys `0..n-1` are present, and the `false`/empty defaults used here
are never consulted on those states. -/
def gateStateAt (ds : DepotState) (g : Nat) : SensorValue :=
  (alookup ds.gate_states g).getD (SensorValue.vbool false)

def spotOccAt (ds : DepotState) (s : Nat) : SensorValue :=
  (alookup ds.spot_occupancy s).getD (SensorValue.vbool false)

def chargerStatusAt (ds : DepotState) (c : Nat) : ChargerDict :=
  (alookup ds.charger_status c).getD ChargerDict.emptyDict

/-- `DepotController._update_depot_state`: name-prefix string dispatch
over the readings dict.  `int(...)` on a non-numeric id field raises
`ValueError`, modelled by `Except.error`; names with none of the three
prefixes are skipped. -/
def updateDepotState (ds : DepotState) :
    List (String × SensorReadingS) → Except Unit DepotState
  | [] => Except.ok ds
  | (name, reading) :: rest =>
    if pyStartsWith name.data ("gate_").data then
      match strToNat? ((splitChars '_' name.data).getD 1 []) with
      | some gid =>
        updateDepotState
          { ds with gate_states := aset ds.gate_states gid reading.value } rest
      | none => Except.error ()
    else if pyStartsWith name.data ("spot_").data then
      match strToNat? ((splitChars '_' name.data).getD 1 []) with
      | some sid =>
        updateDepotState
          { ds with spot_occupancy := aset ds.spot_occupancy sid reading.value } rest
      | none => Except.error ()
    else if pyStartsWith name.data ("charger_").data then
      match strToNat? ((splitChars '_' name.data).getD 1 []) with
      | some cid =>
        match reading.value with
        | SensorValue.vdict d =>
          updateDepotState
            { ds with charger_status := aset ds.charger_status cid d } rest
        | SensorValue.vbool _ => updateDepotState ds rest
      | none => Except.error ()
    else updateDepotState ds rest

/-- `DepotController._can_admit_vehicle`: at least one value of
`spot_occupancy` falsy and at least one charger status whose
`failed` key (default `False`) is not set. -/
def canAdmitVehicle (ds : DepotState) : Bool :=
  decide (0 < ds.spot_occupancy.countP (fun p => !p.2.truthy)) &&
  decide (0 < ds.charger_status.countP (fun p => !(p.2.failed.getD false)))

/-- The scan of `DepotController._assign_parking_spot`: first spot id
reported free by `depot_state` for which `VehicleManager.assign_spot`
accepts the claim. -/
def assignSpotLoop (ds : DepotState) (vid : String) :
    VehicleManager → List Nat → Option Nat × VehicleManager
  | m, [] => (none, m)
  | m, i :: rest =>
    if !(spotOccAt ds i).truthy then
      match m.assign_spot vid i with
      | (true, m1) => (some i, m1)
      | (false, m1) => assignSpotLoop ds vid m1 rest
    else assignSpotLoop ds vid m rest

def assignParkingSpot (ds : DepotState) (num_spots : Nat) (vid : String)
    (m : VehicleManager) : Option Nat × VehicleManager :=
  assignSpotLoop ds vid m (List.range num_spots)

/-- `DepotController._assign_charger`: first charger whose status has
neither `connected` nor `failed` set (`get` with default `False`). -/
def assignCharger (ds : DepotState) (num_chargers : Nat) : Option Nat :=
  (List.range num_chargers).find? (fun i =>
    let d := chargerStatusAt ds i
    !(d.connected.getD false) && !(d.failed.getD false))

/-- `DepotController._is_charger_failed` (`.get(charger_id, {})`). -/
def isChargerFailed (ds : DepotState) : Option Nat → Bool
  | none => false
  | some cid => ((alookup ds.charger_status cid).getD ChargerDict.emptyDict).failed.getD false

/-- `DepotController._free_vehicle_resources`: frees the spot through
the manager and force-clears `connected`/`charging` on the assigned
charger's status dict. -/
def freeVehicleResources (ds : DepotState) (m : VehicleManager) (v : Vehicle) :
    DepotState × VehicleManager :=
  let m1 :=
    match v.assigned_spot with
    | some s => m.free_spot s
    | none => m
  let ds1 :=
    match v.assigned_charger with
    | some c =>
      let d := chargerStatusAt ds c
      let d1 := { d with connected := some false, charging := some false }
      { ds with charger_status := aset ds.charger_status c d1 }
    | none => ds
  (ds1, m1)

/-- `DepotController._process_vehicle`.  The Python method mutates the
shared vehicle object and the manager; here the vehicle is re-read from
and written back to the manager.  Note the source has no branch for
`WAITING` or `DEPARTED` vehicles. -/
def processVehicle (c : DepotController) (m : VehicleManager) (vid : String)
    (step : Nat) : DepotController × VehicleManager × List ControlAction :=
  match alookup m.vehicles vid with
  | none => (c, m, [])
  | some v =>
    match v.state with
    | VehicleState.approaching =>
      if canAdmitVehicle c.depot_state then
        match assignParkingSpot c.depot_state c.num_spots vid m with
        | (some spot, m1) =>
          let v1 := (alookup m1.vehicles vid).getD v
          (c, { m1 with vehicles := aset m1.vehicles vid { v1 with state := VehicleState.entering } },
            [createAction ("depot_controller") ("vehicle_assignment")
              ("vehicle_" ++ vid) ("assign_spot_" ++ natToStr spot) step])
        | (none, m1) =>
          let v1 := (alookup m1.vehicles vid).getD v
          (c, { m1 with vehicles := aset m1.vehicles vid { v1 with state := VehicleState.waiting } },
            [])
      else (c, m, [])
    | VehicleState.entering =>
      (c, { m with vehicles := aset m.vehicles vid { v with state := VehicleState.parking } }, [])
    | VehicleState.parking =>
      match assignCharger c.depot_state c.num_chargers with
      | some charger =>
        let v1 := { v with assigned_charger := some charger, state := VehicleState.charging }
        (c, { m with vehicles := aset m.vehicles vid v1 },
          [createAction ("depot_controller") ("charger_assignment")
            ("charger_" ++ natToStr charger) ("start_charging") step])
      | none => (c, m, [])
    | VehicleState.charging =>
      if v.can_depart then
        let acts :=
          match v.assigned_charger with
          | some ch =>
            [createAction ("depot_controller") ("charger_control")
              ("charger_" ++ natToStr ch) ("stop_charging") step]
          | none => []
        (c, { m with vehicles := aset m.vehicles vid { v with state := VehicleState.exiting } },
          acts)
      else if isChargerFailed c.depot_state v.assigned_charger then
        (c, { m with vehicles := aset m.vehicles vid { v with state := VehicleState.waiting } },
          [createAction ("depot_controller") ("fault_response")
            ("vehicle_" ++ vid) ("charger_failure_detected") step])
      else (c, m, [])
    | VehicleState.exiting =>
      let (ds1, m1) := freeVehicleResources c.depot_state m v
      let v1 := (alookup m1.vehicles vid).getD v
      let v2 := { v1 with state := VehicleState.departed, departure_time := some step }
      ({ c with depot_state := ds1 },
        { m1 with vehicles := aset m1.vehicles vid v2 },
        [])
    | VehicleState.waiting => (c, m, [])
    | VehicleState.departed => (c, m, [])

/-- `DepotController._control_gates`. -/
def controlGates (c : DepotController) (m : VehicleManager) (step : Nat) :
    List ControlAction :=
  let waiting := m.get_vehicles_by_state VehicleState.waiting
  let approaching := m.get_vehicles_by_state VehicleState.approaching
  let should_open_gate :=
    (decide (0 < waiting.length) || decide (0 < approaching.length)) &&
      canAdmitVehicle c.depot_state
  (List.range c.num_gates).filterMap (fun g =>
    let current := (gateStateAt c.depot_state g).truthy
    if should_open_gate && !current then
      some (createAction ("depot_controller") ("gate_control")
        ("gate_" ++ natToStr g) ("open") step)
    else if !should_open_gate && current then
      some (createAction ("depot_controller") ("gate_control")
        ("gate_" ++ natToStr g) ("close") step)
    else none)

/-- `DepotController.process_step`: fold the sensor snapshot into the
depot state, process the vehicles in insertion order, then the gates. -/
def processStep (c : DepotController) (readings : List (String × SensorReadingS))
    (m : VehicleManager) (step : Nat) :
    Except Unit (DepotController × VehicleManager × List ControlAction) :=
  match updateDepotState c.depot_state readings with
  | Except.error e => Except.error e
  | Except.ok ds =>
    let start : DepotController × VehicleManager × List ControlAction :=
      ({ c with depot_state := ds }, m, [])
    let folded :=
      (m.vehicles.map Prod.fst).foldl
        (fun acc vid =>
          let r := processVehicle acc.1 acc.2.1 vid step
          (r.1, r.2.1, acc.2.2 ++ r.2.2))
        start
    Except.ok (folded.1, folded.2.1, folded.2.2 ++ controlGates folded.1 folded.2.1 step)

/-! ### Simulation engine (src/simulation/engine.py) -/

/-- `SimulationConfig` dataclass. -/
structure SimulationConfig where
  num_gates : Nat
  num_spots : Nat
  num_chargers : Nat
  max_steps : Nat
  vehicle_arrival_rate : ℚ
  charger_failure_step : Option Nat
  gate_failure_step : Option Nat
  noise_level : ℚ
deriving DecidableEq, Repr

/-- Engine state.  The database sink, run id and timestamps are
external collaborators and are dropped; `faults_detected` keeps only
the length of the fault list (all the engine reads from it). -/
structure SimulationEngine where
  config : SimulationConfig
  sensor_network : SensorNetworkS
  vehicle_manager : VehicleManager
  controller : DepotController
  current_step : Nat
  faults_detected : Nat
deriving DecidableEq, Repr

def SimulationEngine.init (cfg : SimulationConfig) : SimulationEngine :=
  { config := cfg
    sensor_network := SensorNetworkS.init cfg.num_gates cfg.num_spots cfg.num_chargers cfg.noise_level
    vehicle_manager := VehicleManager.empty
    controller := DepotController.init cfg.num_gates cfg.num_spots cfg.num_chargers
    current_step := 0
    faults_detected := 0 }

/-- First statement of `SimulationEngine._inject_failures`: Python
tests the configured step with `if self.config.charger_failure_step and
...`, so a configured step of `0` is falsy and never fires; when the
test fires, `self.sensor_network.chargers[0].is_failed = True` raises
`KeyError` (modelled by `Except.error`) if the chargers dict has no
key 0. -/
def injectChargerFailure (cfg : SimulationConfig) (step : Nat) (net : SensorNetworkS) :
    Except Unit SensorNetworkS :=
  match cfg.charger_failure_step with
  | some k =>
    if k ≠ 0 ∧ step = k then
      match alookup net.chargers 0 with
      | some s =>
        Except.ok { net with chargers := aset net.chargers 0 { s with is_failed := true } }
      | none => Except.error ()
    else Except.ok net
  | none => Except.ok net

/-- Second statement of `SimulationEngine._inject_failures`, for
`gates[0]`; same truthiness test and the same `KeyError` path when the
gates dict has no key 0. -/
def injectGateFailure (cfg : SimulationConfig) (step : Nat) (net : SensorNetworkS) :
    Except Unit SensorNetworkS :=
  match cfg.gate_failure_step with
  | some k =>
    if k ≠ 0 ∧ step = k then
      match alookup net.gates 0 with
      | some s =>
        Except.ok { net with gates := aset net.gates 0 { s with is_failed := true } }
      | none => Except.error ()
    else Except.ok net
  | none => Except.ok net

/-- `SimulationEngine._inject_failures`: the charger statement runs
first; an exception in it aborts the step before the gate statement. -/
def injectFailures (cfg : SimulationConfig) (step : Nat) (net : SensorNetworkS) :
    Except Unit SensorNetworkS :=
  match injectChargerFailure cfg step net with
  | Except.error u => Except.error u
  | Except.ok net1 => injectGateFailure cfg step net1

/-- `SimulationEngine._generate_vehicles`: one Bernoulli draw
`random.random() < rate`; `u` is the uniform draw (so `0 ≤ u < 1` in
any real run).  The uuid vehicle id is derived from the step counter;
it only needs to be a fresh key. -/
def generateVehicles (cfg : SimulationConfig) (step : Nat) (u : ℚ)
    (m : VehicleManager) : VehicleManager :=
  if u < cfg.vehicle_arrival_rate then
    m.add_vehicle (Vehicle.create_new ("veh_" ++ natToStr step) step)
  else m

/-- `SimulationEngine._detect_faults`: one fault per flagged reading
plus one per conflicted spot; only the count is retained. -/
def detectFaultsCount (readings : List (String × SensorReadingS))
    (m : VehicleManager) : Nat :=
  readings.countP (fun p => p.2.is_fault) + m.detect_occupancy_conflicts.length

/-- `SimulationEngine.run_step`, returning the updated engine and the
step's control actions.  An uncaught exception (the `KeyError` of
`_inject_failures` on a missing sensor, or the `ValueError` of a
malformed sensor name) surfaces as `Except.error`, aborting the step. -/
def SimulationEngine.runStep (e : SimulationEngine) (d : StepDraws) :
    Except Unit (SimulationEngine × List ControlAction) :=
  let step := e.current_step + 1
  match injectFailures e.config step e.sensor_network with
  | Except.error u => Except.error u
  | Except.ok net1 =>
    let m1 := generateVehicles e.config step d.arrival e.vehicle_manager
    let rr := net1.read_all_sensors d
    let m2 := m1.update_all_vehicles
    match processStep e.controller rr.2 m2 step with
    | Except.error u => Except.error u
    | Except.ok (c1, m3, actions) =>
      Except.ok
        ({ e with sensor_network := rr.1
                  vehicle_manager := m3
                  controller := c1
                  current_step := step
                  faults_detected := e.faults_detected + detectFaultsCount rr.2 m3 },
          actions)

/-- Iterated `run_step`, accumulating every emitted action. -/
def runSteps : SimulationEngine → List StepDraws →
    Except Unit (SimulationEngine × List ControlAction)
  | e, [] => Except.ok (e, [])
  | e, d :: ds =>
    match e.runStep d with
    | Except.error u => Except.error u
    | Except.ok (e1, acts) =>
      match runSteps e1 ds with
      | Except.error u => Except.error u
      | Except.ok (e2, rest) => Except.ok (e2, acts ++ rest)

/-- The loop of `SimulationEngine.run_complete_simulation` with
`run_step` abstracted by the number of faults it appends at each
iteration (`faultsAt i` for the `i`-th executed step, 0-based): up to
`max_steps` iterations, breaking after a step once the cumulative
fault count exceeds 10.  Returns (steps executed, final fault count). -/
def runCompleteLoop (faultsAt : Nat → Nat) : Nat → Nat → Nat → Nat × Nat
  | 0, _, acc => (0, acc)
  | remaining + 1, i, acc =>
    let acc1 := acc + faultsAt i
    if 10 < acc1 then (1, acc1)
    else
      let p := runCompleteLoop faultsAt remaining (i + 1) acc1
      (p.1 + 1, p.2)

/-- `run_complete_simulation`: the loop started at step 0 with an empty
fault list. -/
def runCompleteSimulation (faultsAt : Nat → Nat) (max_steps : Nat) : Nat × Nat :=
  runCompleteLoop faultsAt max_steps 0 0

/-- Cumulative faults after the first `k` executed steps. -/
def cumFaults (faultsAt : Nat → Nat) (i : Nat) : Nat → Nat
  | 0 => 0
  | k + 1 => faultsAt i + cumFaults faultsAt (i + 1) k

/-! ### Support definitions for the claim theorems -/

/-- All operations the code base performs on a `VehicleManager`
(`_assign_parking_spot` goes through `assign_spot`, `EXITING`
processing through `free_spot`; `assigned_spot` is never written
outside these methods). -/
inductive ManagerOp where
  | add (v : Vehicle)
  | remove (vid : String)
  | assign (vid : String) (sid : Nat)
  | free (sid : Nat)

def applyManagerOp (m : VehicleManager) : ManagerOp → VehicleManager
  | .add v => m.add_vehicle v
  | .remove vid => m.remove_vehicle vid
  | .assign vid sid => (m.assign_spot vid sid).2
  | .free sid => m.free_spot sid

def applyManagerOps (m : VehicleManager) : List ManagerOp → VehicleManager
  | [] => m
  | op :: ops => applyManagerOps (applyManagerOp m op) ops

/-- Configuration used to exhibit the double charger assignment: one
gate, two spots, one charger, arrival probability 0.3. -/
def cfgC1 : SimulationConfig :=
  { num_gates := 1, num_spots := 2, num_chargers := 1, max_steps := 10,
    vehicle_arrival_rate := mkRat 3 10, charger_failure_step := none,
    gate_failure_step := none, noise_level := mkRat 5 100 }

/-- A step whose arrival draw admits a vehicle (uniform draw 0 < 0.3)
and whose sensor draws all come out negative. -/
def drawArrive : StepDraws :=
  { arrival := 0, gateFail := fun _ => false, spotNoise := fun _ => false,
    chargerFail := fun _ => false }

/-- A step with no arrival (uniform draw 1 ≥ 0.3) and negative sensor
draws. -/
def drawQuiet : StepDraws :=
  { arrival := 1, gateFail := fun _ => false, spotNoise := fun _ => false,
    chargerFail := fun _ => false }

/-- The four-step run: two vehicles arrive, both are admitted, and both
end up assigned to charger 0. -/
def traceC1 : Except Unit (SimulationEngine × List ControlAction) :=
  runSteps (SimulationEngine.init cfgC1) [drawArrive, drawArrive, drawQuiet, drawQuiet]

/-- State and assigned charger of a vehicle at the end of a run. -/
def vehicleOutcome (r : Except Unit (SimulationEngine × List ControlAction))
    (vid : String) : Option (VehicleState × Option Nat) :=
  match r with
  | Except.ok (e, _) =>
    (alookup e.vehicle_manager.vehicles vid).map (fun v => (v.state, v.assigned_charger))
  | Except.error _ => none

/-- Concrete manager for the witness of `claim1_spot_freed_between`:
spot 0 held by vehicle `a`, vehicle `b` registered. -/
def mgrC1w : VehicleManager :=
  { vehicles := [(("b"), Vehicle.create_new ("b") 0)]
    vehicle_positions := [(0, some ("a"))] }

def opsC1w : List ManagerOp := [ManagerOp.free 0, ManagerOp.assign ("b") 0]

/-- A vehicle parked in state WAITING, and a manager holding only it
(used for C2). -/
def vWaiting : Vehicle :=
  { Vehicle.create_new ("w1") 0 with state := VehicleState.waiting }

def mgrWaiting : VehicleManager := VehicleManager.empty.add_vehicle vWaiting

/-- Controller whose sensor-derived view reports the single spot
occupied, so that admission is impossible (used for C3). -/
def ctrlFull : DepotController :=
  let c := DepotController.init 1 1 1
  { c with depot_state :=
      { c.depot_state with spot_occupancy := [(0, SensorValue.vbool true)] } }

/-- An APPROACHING vehicle registered alone (used for C3). -/
def vApproach : Vehicle := Vehicle.create_new ("vA") 0

def mgrApproach : VehicleManager := VehicleManager.empty.add_vehicle vApproach

/-- A concrete CHARGING vehicle for the C6 witness. -/
def vChargingW : Vehicle :=
  { Vehicle.create_new ("c1") 0 with state := VehicleState.charging }

/-- A failed gate sensor and a failed charger sensor (witness inputs). -/
def gateFailedW : GateSensorSt := { gate_id := 0, is_open := true, is_failed := true }

def chargerFailedW : ChargerSensorSt :=
  { charger_id := 0, is_connected := true, is_charging := true, is_failed := true,
    power_output := 50 }

/-- An entry of a sensor-readings map is parseable when its name either
has none of the three known prefixes, or its id field (the text after
the first underscore) is numeric. -/
def entryParses (p : String × SensorReadingS) : Bool :=
  if pyStartsWith p.1.data ("gate_").data
      || pyStartsWith p.1.data ("spot_").data
      || pyStartsWith p.1.data ("charger_").data then
    (strToNat? ((splitChars '_' p.1.data).getD 1 [])).isSome
  else true

/-- A syntactically well-formed but semantically malformed reading: the
known prefix `gate_` followed by a non-numeric id. -/
def readingC8 : SensorReadingS :=
  { sensor_name := "gate_abc", sensor_type := SensorType.gate,
    value := SensorValue.vbool false, is_fault := false, noise_level := 0 }

/-- The gate decision exactly as the specification words it (the
spec-side definition for the comparison): open iff some vehicle is
WAITING or APPROACHING, and at least one spot reads free, and at least
one charger is not failed (connected/charging status irrelevant). -/
def gateDecisionSpec (c : DepotController) (m : VehicleManager) : Bool :=
  decide (∃ v ∈ m.vehicles.map Prod.snd,
      v.state = VehicleState.waiting ∨ v.state = VehicleState.approaching)
  && decide (∃ p ∈ c.depot_state.spot_occupancy, p.2.truthy = false)
  && decide (∃ p ∈ c.depot_state.charger_status, p.2.failed.getD false = false)

/-- The single `gate_control` action for gate `g` under decision
`dec`. -/
def gateActionSpec (dec : Bool) (g step : Nat) : ControlAction :=
  createAction ("depot_controller") ("gate_control") ("gate_" ++ natToStr g)
    (if dec then ("open") else ("close")) step

/-- The entries a `read_all_sensors` snapshot can contain: a gate
reading (reporting closed, in the runs of C9), a spot reading, or a
charger reading, each under its generated name. -/
def QuietEntry (p : String × SensorReadingS) : Prop :=
  (∃ i, p.1 = "gate_" ++ natToStr i ∧ p.2.value = SensorValue.vbool false)
  ∨ (∃ i, p.1 = "spot_" ++ natToStr i)
  ∨ (∃ i, p.1 = "charger_" ++ natToStr i)

/-- Invariant of a run with arrival rate 0: no vehicles, every gate
sensor reports closed (nothing in the pipeline ever calls
`set_state`), the controller's gate view is all-closed, and whenever a
failure-injection step is configured the sensor its firing indexes
(`chargers[0]` / `gates[0]`) is present, so `_inject_failures` cannot
raise. -/
def quietInv (e : SimulationEngine) : Prop :=
  e.vehicle_manager.vehicles = []
  ∧ (∀ p ∈ e.sensor_network.gates, p.2.is_open = false)
  ∧ (∀ p ∈ e.controller.depot_state.gate_states, p.2.truthy = false)
  ∧ (e.config.charger_failure_step = none
      ∨ (alookup e.sensor_network.chargers 0).isSome = true)
  ∧ (e.config.gate_failure_step = none
      ∨ (alookup e.sensor_network.gates 0).isSome = true)

/-- A zero-arrival configuration for the C9 witness. -/
def cfgC9 : SimulationConfig :=
  { num_gates := 2, num_spots := 3, num_chargers := 2, max_steps := 10,
    vehicle_arrival_rate := 0, charger_failure_step := none,
    gate_failure_step := none, noise_level := mkRat 5 100 }

/-! #### Lemmas about the decimal-string layer -/

theorem charDigit_digitChar {d : Nat} (h : d < 10) :
    charDigit? (digitChar d) = some d := by
  interval_cases d <;> decide

theorem digitChar_ne_underscore {d : Nat} (h : d < 10) :
    digitChar d ≠ '_' := by
  interval_cases d <;> decide

theorem digitsVal_natDigitsRevFuel :
    ∀ (fuel n : Nat), n ≤ fuel → digitsVal (natDigitsRevFuel fuel n) = n := by
  intro fuel
  induction fuel with
  | zero => intro n hn; interval_cases n; rfl
  | succ f ih =>
    intro n hn
    match n with
    | 0 => rfl
    | m + 1 =>
      have hdiv : (m + 1) / 10 ≤ f := by
        have : (m + 1) / 10 < m + 1 := Nat.div_lt_self (Nat.succ_pos m) (by decide)
        omega
      simp only [natDigitsRevFuel, digitsVal, List.foldr]
      have := ih ((m + 1) / 10) hdiv
      simp only [digitsVal] at this
      rw [this]
      omega

theorem digitsVal_natDigitsRev (n : Nat) : digitsVal (natDigitsRev n) = n :=
  digitsVal_natDigitsRevFuel n n (Nat.le_refl n)

theorem natDigitsRevFuel_lt_ten :
    ∀ (fuel n : Nat), ∀ d ∈ natDigitsRevFuel fuel n, d < 10 := by
  intro fuel
  induction fuel with
  | zero => intro n d hd; simp [natDigitsRevFuel] at hd
  | succ f ih =>
    intro n d hd
    match n with
    | 0 => simp [natDigitsRevFuel] at hd
    | m + 1 =>
      simp only [natDigitsRevFuel, List.mem_cons] at hd
      rcases hd with h | h
      · subst h; exact Nat.mod_lt _ (by decide)
      · exact ih _ _ h

theorem natDigitsRev_lt_ten (n : Nat) : ∀ d ∈ natDigitsRev n, d < 10 :=
  natDigitsRevFuel_lt_ten n n

theorem natChars_digits (n : Nat) : ∀ c ∈ natChars n, charDigit? c ≠ none := by
  intro c hc
  unfold natChars at hc
  by_cases h0 : n = 0
  · simp [h0] at hc; subst hc; decide
  · simp only [h0, if_false, List.mem_map, List.mem_reverse] at hc
    obtain ⟨d, hd, rfl⟩ := hc
    rw [charDigit_digitChar (natDigitsRev_lt_ten n d hd)]
    simp

theorem natChars_ne_underscore (n : Nat) : ∀ c ∈ natChars n, c ≠ '_' := by
  intro c hc
  unfold natChars at hc
  by_cases h0 : n = 0
  · simp [h0] at hc; subst hc; decide
  · simp only [h0, if_false, List.mem_map, List.mem_reverse] at hc
    obtain ⟨d, hd, rfl⟩ := hc
    exact digitChar_ne_underscore (natDigitsRev_lt_ten n d hd)

theorem parseDigitsAux_digits (l : List Nat) (hl : ∀ d ∈ l, d < 10) (acc : Nat) :
    parseDigitsAux (l.map digitChar) acc
      = some (l.foldl (fun a d => a * 10 + d) acc) := by
  induction l generalizing acc with
  | nil => rfl
  | cons d ds ih =>
    have hd : d < 10 := hl d (List.mem_cons_self d ds)
    simp only [List.map, parseDigitsAux, charDigit_digitChar hd, List.foldl]
    exact ih (fun x hx => hl x (List.mem_cons_of_mem d hx)) _

theorem foldl_reverse_digitsVal (l : List Nat) :
    l.reverse.foldl (fun a d => a * 10 + d) 0 = digitsVal l := by
  rw [List.foldl_reverse]; rfl

/-- Round trip: parsing the rendering of `n` gives back `n` — i.e.
`int(str(n)) = n` holds for the model. -/
theorem strToNat_natChars (n : Nat) : strToNat? (natChars n) = some n := by
  by_cases h0 : n = 0
  · subst h0; decide
  · have hne : natDigitsRev n ≠ [] := by
      unfold natDigitsRev
      match hn : n, h0 with
      | m + 1, _ =>
        simp [natDigitsRevFuel]
    unfold natChars
    simp only [h0, if_false]
    have hform :
        parseDigitsAux ((natDigitsRev n).reverse.map digitChar) 0 = some n := by
      rw [parseDigitsAux_digits ((natDigitsRev n).reverse)
            (fun d hd => natDigitsRev_lt_ten n d (List.mem_reverse.mp hd)) 0]
      rw [foldl_reverse_digitsVal, digitsVal_natDigitsRev]
    match hL : (natDigitsRev n).reverse.map digitChar with
    | [] =>
      exfalso
      have := congrArg List.length hL
      simp at this
      exact hne this
    | c :: cs =>
      rw [hL] at hform
      simpa [strToNat?] using hform

theorem pyStartsWith_append (p rest : List Char) :
    pyStartsWith (p ++ rest) p = true := by
  induction p with
  | nil => cases rest <;> rfl
  | cons c cs ih => simp [pyStartsWith, ih]

theorem splitChars_no_sep (sep : Char) (l : List Char) (h : sep ∉ l) :
    splitChars sep l = [l] := by
  induction l with
  | nil => rfl
  | cons c cs ih =>
    have hc : c ≠ sep := fun hcs => h (hcs ▸ List.mem_cons_self c cs)
    have hcs : sep ∉ cs := fun hx => h (List.mem_cons_of_mem c hx)
    simp only [splitChars, if_neg hc, ih hcs]

theorem splitChars_append (sep : Char) (l1 l2 : List Char) (h : sep ∉ l1) :
    splitChars sep (l1 ++ sep :: l2) = l1 :: splitChars sep l2 := by
  induction l1 with
  | nil => simp [splitChars]
  | cons c cs ih =>
    have hc : c ≠ sep := fun hcs => h (hcs ▸ List.mem_cons_self c cs)
    have hcs : sep ∉ cs := fun hx => h (List.mem_cons_of_mem c hx)
    simp only [List.cons_append, splitChars, if_neg hc]
    rw [show cs.append (sep :: l2) = cs ++ sep :: l2 from rfl, ih hcs]

theorem alookup_aset {κ ν : Type} [DecidableEq κ]
    (l : List (κ × ν)) (k k2 : κ) (v : ν) :
    alookup (aset l k v) k2 = if k = k2 then some v else alookup l k2 := by
  induction l with
  | nil => by_cases h : k = k2 <;> simp [aset, alookup, h]
  | cons p rest ih =>
    obtain ⟨pk, pv⟩ := p
    by_cases h1 : pk = k
    · subst h1
      by_cases h2 : pk = k2 <;> simp [aset, alookup, h2]
    · by_cases h2 : pk = k2
      · subst h2
        have : ¬ k = pk := fun h => h1 h.symm
        simp [aset, alookup, h1, this]
      · simp [aset, alookup, h1, h2, ih]

theorem alookup_mem {κ ν : Type} [DecidableEq κ]
    (l : List (κ × ν)) (k : κ) (v : ν) (h : alookup l k = some v) :
    (k, v) ∈ l := by
  induction l with
  | nil => simp [alookup] at h
  | cons p rest ih =>
    obtain ⟨pk, pv⟩ := p
    by_cases hk : pk = k
    · subst hk
      rw [alookup, if_pos rfl] at h
      injection h with h
      subst h
      exact List.mem_cons_self _ _
    · simp only [alookup, if_neg hk] at h
      exact List.mem_cons_of_mem _ (ih h)

theorem aset_forall {κ ν : Type} [DecidableEq κ]
    (l : List (κ × ν)) (k : κ) (v : ν) (P : ν → Prop)
    (hl : ∀ p ∈ l, P p.2) (hv : P v) : ∀ p ∈ aset l k v, P p.2 := by
  induction l with
  | nil => intro p hp; simp [aset] at hp; subst hp; exact hv
  | cons q rest ih =>
    obtain ⟨qk, qv⟩ := q
    intro p hp
    by_cases hq : qk = k
    · simp only [aset, if_pos hq, List.mem_cons] at hp
      rcases hp with rfl | hp
      · exact hv
      · exact hl p (List.mem_cons_of_mem _ hp)
    · simp only [aset, if_neg hq, List.mem_cons] at hp
      rcases hp with rfl | hp
      · exact hl _ (List.mem_cons_self _ _)
      · exact ih (fun q hq2 => hl q (List.mem_cons_of_mem _ hq2)) p hp

theorem qadd_eq (a b : ℚ) : qadd a b = a + b := (Rat.add_def' a b).symm

/-! ### Theorems for the claims -/

theorem applyManagerOp_no_handover (m : VehicleManager) (op : ManagerOp)
    (s : Nat) (w w2 : String)
    (h1 : alookup m.vehicle_positions s = some (some w))
    (h2 : alookup (applyManagerOp m op).vehicle_positions s = some (some w2)) :
    w2 = w := by
  cases op with
  | add v =>
    simp only [applyManagerOp, VehicleManager.add_vehicle] at h2
    rw [h1] at h2
    exact (Option.some.inj (Option.some.inj h2)).symm
  | remove vid =>
    simp only [applyManagerOp, VehicleManager.remove_vehicle] at h2
    split at h2
    · rw [h1] at h2
      exact (Option.some.inj (Option.some.inj h2)).symm
    · dsimp only at h2
      split at h2
      · rw [alookup_aset] at h2
        split at h2
        · exact absurd (Option.some.inj h2) (by simp)
        · rw [h1] at h2
          exact (Option.some.inj (Option.some.inj h2)).symm
      · rw [h1] at h2
        exact (Option.some.inj (Option.some.inj h2)).symm
  | free sid =>
    simp only [applyManagerOp, VehicleManager.free_spot] at h2
    split at h2
    · rw [h1] at h2
      exact (Option.some.inj (Option.some.inj h2)).symm
    · dsimp only at h2
      have hpos : ∀ (m1 : VehicleManager), m1.vehicle_positions = m.vehicle_positions →
          alookup (aset m1.vehicle_positions sid none) s = some (some w2) → w2 = w := by
        intro m1 hm1 hh
        rw [hm1, alookup_aset] at hh
        split at hh
        · exact absurd (Option.some.inj hh) (by simp)
        · rw [h1] at hh
          exact (Option.some.inj (Option.some.inj hh)).symm
      revert h2
      split
      · split
        · split
          · exact fun h2 => hpos _ rfl h2
          · exact fun h2 => hpos _ rfl h2
        · exact fun h2 => hpos _ rfl h2
      · exact fun h2 => hpos _ rfl h2
  | assign vid sid =>
    simp only [applyManagerOp, VehicleManager.assign_spot] at h2
    split at h2
    · rw [h1] at h2
      exact (Option.some.inj (Option.some.inj h2)).symm
    · rename_i hnotocc
      have hss : sid ≠ s := by
        intro hc
        subst hc
        exact hnotocc w h1
      split at h2
      · rw [h1] at h2
        exact (Option.some.inj (Option.some.inj h2)).symm
      · dsimp only at h2
        rw [alookup_aset, if_neg hss] at h2
        split at h2
        · rw [alookup_aset] at h2
          split at h2
          · exact absurd (Option.some.inj h2) (by simp)
          · rw [h1] at h2
            exact (Option.some.inj (Option.some.inj h2)).symm
        · rw [h1] at h2
          exact (Option.some.inj (Option.some.inj h2)).symm

/-- C1 (amended): a spot, once exclusively assigned (the positions map
holds a vehicle for it), is never handed directly to a different
vehicle by any sequence of manager operations: if it ends up held by a
different vehicle, there is an intermediate point of the run at which
the spot had been freed. -/
theorem claim1_spot_freed_between (ops : List ManagerOp) (m : VehicleManager)
    (s : Nat) (w w2 : String)
    (h1 : alookup m.vehicle_positions s = some (some w))
    (h2 : alookup (applyManagerOps m ops).vehicle_positions s = some (some w2))
    (hne : w ≠ w2) :
    ∃ k, k ≤ ops.length ∧
      ∀ x, alookup (applyManagerOps m (ops.take k)).vehicle_positions s
        ≠ some (some x) := by
  induction ops generalizing m with
  | nil =>
    exfalso
    simp only [applyManagerOps] at h2
    rw [h1] at h2
    exact hne (Option.some.inj (Option.some.inj h2))
  | cons op ops ih =>
    cases hmid : alookup (applyManagerOp m op).vehicle_positions s with
    | none =>
      refine ⟨1, by simp, ?_⟩
      intro x
      simp only [List.take, applyManagerOps, hmid]
      exact fun h => by cases h
    | some vopt =>
      cases vopt with
      | none =>
        refine ⟨1, by simp, ?_⟩
        intro x
        simp only [List.take, applyManagerOps, hmid]
        intro h
        exact absurd (Option.some.inj h) (by simp)
      | some x =>
        have hx : x = w := applyManagerOp_no_handover m op s w x h1 hmid
        subst hx
        have h2m : alookup (applyManagerOps (applyManagerOp m op) ops).vehicle_positions s
            = some (some w2) := h2
        obtain ⟨k, hk, hfree⟩ := ih (applyManagerOp m op) hmid h2m
        refine ⟨k + 1, by simpa using Nat.succ_le_succ hk, ?_⟩
        intro y
        simpa only [List.take, applyManagerOps] using hfree y

/-- C1 (counterexample): in the four-step run from an empty depot with
one charger, the two distinct vehicles `veh_1` and `veh_2` are
simultaneously in state CHARGING with `assigned_charger = 0`, and the
charger was never freed (no vehicle ever left CHARGING).  Charger
assignment (`_assign_charger`) consults only the sensor-derived status,
which never shows `connected`, so exclusivity fails. -/
theorem claim1_counterexample :
    vehicleOutcome traceC1 ("veh_1") = some (VehicleState.charging, some 0)
    ∧ vehicleOutcome traceC1 ("veh_2") = some (VehicleState.charging, some 0)
    ∧ ("veh_1" : String) ≠ "veh_2" := by
  refine ⟨by decide, by decide, by decide⟩

/-- Witness for `claim1_spot_freed_between` at a concrete run in which
spot 0 passes from `a` to `b`. -/
theorem claim1_spot_freed_between_witness :
    ∃ k, k ≤ opsC1w.length ∧
      ∀ x, alookup (applyManagerOps mgrC1w (opsC1w.take k)).vehicle_positions 0
        ≠ some (some x) :=
  claim1_spot_freed_between opsC1w mgrC1w 0 ("a") ("b") (by decide) (by decide)
    (by decide)

/-- C10: `assign_spot` returns `False` and changes nothing when the
spot is occupied or the vehicle is unknown; on success the spot maps to
the vehicle and the vehicle's previous (distinct) spot is freed. -/
theorem claim10_assign_spot (m : VehicleManager) (vid : String) (sid : Nat) :
    ((∃ w, alookup m.vehicle_positions sid = some (some w)) ∨
        alookup m.vehicles vid = none →
      m.assign_spot vid sid = (false, m))
    ∧ (∀ m1, m.assign_spot vid sid = (true, m1) →
        alookup m1.vehicle_positions sid = some (some vid)
        ∧ ∀ v prev, alookup m.vehicles vid = some v → v.assigned_spot = some prev →
            prev ≠ sid → alookup m1.vehicle_positions prev = some none) := by
  constructor
  · intro h
    unfold VehicleManager.assign_spot
    rcases h with ⟨w, hw⟩ | hv
    · rw [hw]
    · cases hp : alookup m.vehicle_positions sid with
      | some vopt =>
        cases vopt with
        | some x => rfl
        | none => rw [hv]
      | none => rw [hv]
  · intro m1 hm1
    unfold VehicleManager.assign_spot at hm1
    revert hm1
    split
    · intro hm1; cases hm1
    · split
      · intro hm1; cases hm1
      · rename_i hnotocc v hv
        intro hm1
        injection hm1 with hb hm1
        subst hm1
        constructor
        · simp [alookup_aset]
        · intro v2 prev hv2 hprev hne
          rw [hv] at hv2
          injection hv2 with hv2
          subst hv2
          rw [hprev]
          simp [alookup_aset, if_neg (fun h => hne h.symm : ¬ sid = prev)]

/-- Witness for `claim10_assign_spot`: occupied spot refused, and a
successful reassignment frees the old spot. -/
theorem claim10_assign_spot_witness :
    (mgrC1w.assign_spot ("b") 0 = (false, mgrC1w))
    ∧ ((∃ w, alookup mgrC1w.vehicle_positions 0 = some (some w)) ∨
        alookup mgrC1w.vehicles ("b") = none) :=
  ⟨(claim10_assign_spot mgrC1w ("b") 0).1 (Or.inl ⟨("a"), by decide⟩),
    Or.inl ⟨("a"), by decide⟩⟩

/-- C2: contrary to the claim, `_process_vehicle` has no branch for
WAITING vehicles at all: whatever the depot state (in particular with a
free spot and a non-failed charger available), a WAITING vehicle is
left untouched and no admission re-check takes place. -/
theorem claim2_waiting_never_reprocessed (c : DepotController) (m : VehicleManager)
    (vid : String) (step : Nat) (v : Vehicle)
    (hv : alookup m.vehicles vid = some v)
    (hw : v.state = VehicleState.waiting) :
    processVehicle c m vid step = (c, m, []) := by
  unfold processVehicle
  rw [hv]
  dsimp only
  rw [hw]

/-- Witness for `claim2_waiting_never_reprocessed`: admission is
possible (free spots, non-failed charger) yet the WAITING vehicle stays
WAITING and produces no action. -/
theorem claim2_waiting_never_reprocessed_witness :
    canAdmitVehicle (DepotController.init 1 2 1).depot_state = true
    ∧ processVehicle (DepotController.init 1 2 1) mgrWaiting ("w1") 5
        = (DepotController.init 1 2 1, mgrWaiting, []) :=
  ⟨by decide,
    claim2_waiting_never_reprocessed (DepotController.init 1 2 1) mgrWaiting
      ("w1") 5 vWaiting (by decide) (by decide)⟩

/-- C3 (counterexample): with no free spot, admission is impossible,
yet processing the APPROACHING vehicle leaves it APPROACHING — not
WAITING as the claim states (the `if _can_admit_vehicle()` has no else
branch). -/
theorem claim3_counterexample :
    canAdmitVehicle ctrlFull.depot_state = false
    ∧ (alookup (processVehicle ctrlFull mgrApproach ("vA") 1).2.1.vehicles ("vA")).map
        Vehicle.state = some VehicleState.approaching
    ∧ VehicleState.approaching ≠ VehicleState.waiting := by
  refine ⟨by decide, by decide, by decide⟩

/-- C3 (amended): when admission is not possible, an APPROACHING
vehicle is left exactly as it was (state still APPROACHING, manager and
controller untouched, no actions); it is routed to WAITING only in the
other branch, when admission is possible but every spot-assignment
attempt fails. -/
theorem claim3_no_capacity_stays_approaching (c : DepotController)
    (m : VehicleManager) (vid : String) (step : Nat) (v : Vehicle)
    (hv : alookup m.vehicles vid = some v)
    (ha : v.state = VehicleState.approaching)
    (hcap : canAdmitVehicle c.depot_state = false) :
    processVehicle c m vid step = (c, m, []) := by
  unfold processVehicle
  rw [hv]
  dsimp only
  rw [ha, hcap]
  simp

/-- Witness for `claim3_no_capacity_stays_approaching`. -/
theorem claim3_no_capacity_stays_approaching_witness :
    canAdmitVehicle ctrlFull.depot_state = false
    ∧ processVehicle ctrlFull mgrApproach ("vA") 1 = (ctrlFull, mgrApproach, []) :=
  ⟨by decide,
    claim3_no_capacity_stays_approaching ctrlFull mgrApproach ("vA") 1 vApproach
      (by decide) (by decide) (by decide)⟩

/-- C6: one charge update never decreases the level of a CHARGING
vehicle, leaves a non-CHARGING vehicle's level unchanged, and keeps the
level inside [0, 1]; a freshly created vehicle starts inside [0, 1]
(level 0.2), so the bound is an invariant of every run. -/
theorem claim6_charge_monotone_bounded (vid : String) (t : Nat) (v : Vehicle)
    (rate : ℚ) (hrate : 0 ≤ rate)
    (h0 : 0 ≤ v.charge_level) (h1 : v.charge_level ≤ 1) :
    (0 ≤ (Vehicle.create_new vid t).charge_level
      ∧ (Vehicle.create_new vid t).charge_level ≤ 1)
    ∧ (v.state = VehicleState.charging →
        v.charge_level ≤ (v.update_charge rate).charge_level)
    ∧ (v.state ≠ VehicleState.charging →
        (v.update_charge rate).charge_level = v.charge_level)
    ∧ 0 ≤ (v.update_charge rate).charge_level
    ∧ (v.update_charge rate).charge_level ≤ 1 := by
  have hinit : 0 ≤ (Vehicle.create_new vid t).charge_level
      ∧ (Vehicle.create_new vid t).charge_level ≤ 1 := by
    constructor
    · show (0 : ℚ) ≤ mkRat 2 10
      decide
    · show (mkRat 2 10 : ℚ) ≤ 1
      decide
  refine ⟨hinit, ?_, ?_, ?_, ?_⟩ <;> unfold Vehicle.update_charge
  · intro hs
    rw [if_pos hs]
    show v.charge_level ≤ min 1 (qadd v.charge_level rate)
    rw [qadd_eq]
    exact le_min h1 (by linarith)
  · intro hs
    rw [if_neg hs]
  · by_cases hs : v.state = VehicleState.charging
    · rw [if_pos hs]
      show (0 : ℚ) ≤ min 1 (qadd v.charge_level rate)
      rw [qadd_eq]
      exact le_min zero_le_one (by linarith)
    · rw [if_neg hs]; exact h0
  · by_cases hs : v.state = VehicleState.charging
    · rw [if_pos hs]
      show min 1 (qadd v.charge_level rate) ≤ (1 : ℚ)
      exact min_le_left _ _
    · rw [if_neg hs]; exact h1

/-- Witness for `claim6_charge_monotone_bounded` at the default rate
0.05 on a charging vehicle at level 0.2. -/
theorem claim6_charge_monotone_bounded_witness :
    (0 : ℚ) ≤ mkRat 5 100
    ∧ 0 ≤ vChargingW.charge_level
    ∧ vChargingW.charge_level ≤ 1
    ∧ (vChargingW.state = VehicleState.charging →
        vChargingW.charge_level ≤ (vChargingW.update_charge (mkRat 5 100)).charge_level) :=
  ⟨by decide, by decide, by decide,
    (claim6_charge_monotone_bounded ("x") 0 vChargingW (mkRat 5 100)
      (by decide) (by decide) (by decide)).2.1⟩

theorem runCompleteLoop_steps_le (f : Nat → Nat) :
    ∀ (n i acc : Nat), (runCompleteLoop f n i acc).1 ≤ n := by
  intro n
  induction n with
  | zero => intro i acc; simp [runCompleteLoop]
  | succ r ih =>
    intro i acc
    unfold runCompleteLoop
    dsimp only
    split
    · simp
    · have := ih (i + 1) (acc + f i)
      omega

theorem runCompleteLoop_cum_le (f : Nat → Nat) :
    ∀ (n i acc k : Nat), acc ≤ 10 → k < (runCompleteLoop f n i acc).1 →
      acc + cumFaults f i k ≤ 10 := by
  intro n
  induction n with
  | zero =>
    intro i acc k hacc hk
    simp [runCompleteLoop] at hk
  | succ r ih =>
    intro i acc k hacc hk
    unfold runCompleteLoop at hk
    dsimp only at hk
    by_cases hover : 10 < acc + f i
    · rw [if_pos hover] at hk
      simp at hk
      subst hk
      simpa [cumFaults] using hacc
    · rw [if_neg hover] at hk
      simp at hk
      match k with
      | 0 => simpa [cumFaults] using hacc
      | j + 1 =>
        have hj : j < (runCompleteLoop f r (i + 1) (acc + f i)).1 := by omega
        have := ih (i + 1) (acc + f i) j (by omega) hj
        simp only [cumFaults]
        omega

/-- C7: the `run_complete_simulation` loop executes at most `max_steps`
iterations of `run_step`, and whenever a `k`-th further step is
executed, the cumulative fault count at the end of the previous steps
was still at most 10 — i.e. no step runs after the threshold of 10 is
exceeded. -/
theorem claim7_termination (f : Nat → Nat) (max_steps : Nat) :
    (runCompleteSimulation f max_steps).1 ≤ max_steps
    ∧ ∀ k, k < (runCompleteSimulation f max_steps).1 → cumFaults f 0 k ≤ 10 := by
  constructor
  · exact runCompleteLoop_steps_le f max_steps 0 0
  · intro k hk
    have := runCompleteLoop_cum_le f max_steps 0 0 k (by omega) hk
    omega

/-- Witness for `claim7_termination`: with 6 faults per step and
`max_steps = 5` the loop stops after the second step (cumulative 12 >
10), and the cumulative count before that step was within threshold. -/
theorem claim7_termination_witness :
    (runCompleteSimulation (fun _ => 6) 5).1 = 2
    ∧ 1 < (runCompleteSimulation (fun _ => 6) 5).1
    ∧ cumFaults (fun _ => 6) 0 1 ≤ 10 :=
  ⟨by decide, by decide, (claim7_termination (fun _ => 6) 5).2 1 (by decide)⟩

theorem gateOp_keeps_failed (s : GateSensorSt) (op : GateOp)
    (h : s.is_failed = true) : (s.applyOp op).is_failed = true := by
  cases op with
  | read d =>
    cases d <;> simp [GateSensorSt.applyOp, GateSensorSt.read, h]
  | setState b => simp [GateSensorSt.applyOp, GateSensorSt.set_state, h]
  | injectFault => rfl

theorem gateOps_keep_failed (ops : List GateOp) (s : GateSensorSt)
    (h : s.is_failed = true) : (s.applyOps ops).is_failed = true := by
  induction ops generalizing s with
  | nil => exact h
  | cons op ops ih => exact ih _ (gateOp_keeps_failed s op h)

theorem chargerOp_keeps_failed (s : ChargerSensorSt) (op : ChargerOp)
    (h : s.is_failed = true) : (s.applyOp op).is_failed = true := by
  cases op with
  | read d =>
    cases d <;> simp [ChargerSensorSt.applyOp, ChargerSensorSt.read, h]
  | connect => simp [ChargerSensorSt.applyOp, ChargerSensorSt.connect_vehicle, h]
  | disconnect => simp [ChargerSensorSt.applyOp, ChargerSensorSt.disconnect_vehicle, h]
  | startCharging p =>
    simp [ChargerSensorSt.applyOp, ChargerSensorSt.start_charging, h]
  | stopCharging => simp [ChargerSensorSt.applyOp, ChargerSensorSt.stop_charging, h]
  | injectFault => rfl

theorem chargerOps_keep_failed (ops : List ChargerOp) (s : ChargerSensorSt)
    (h : s.is_failed = true) : (s.applyOps ops).is_failed = true := by
  induction ops generalizing s with
  | nil => exact h
  | cons op ops ih => exact ih _ (chargerOp_keeps_failed s op h)

theorem gate_read_failed (s : GateSensorSt) (d : Bool) (h : s.is_failed = true) :
    (s.read d).2.is_fault = true ∧ (s.read d).2.value = SensorValue.vbool false := by
  cases d <;> simp [GateSensorSt.read, h]

theorem charger_read_failed (s : ChargerSensorSt) (d : Bool) (h : s.is_failed = true) :
    (s.read d).2.is_fault = true
    ∧ (s.read d).2.value = SensorValue.vdict
        { connected := some s.is_connected, charging := some false,
          power_kw := some 0, failed := some true } := by
  cases d <;> simp [ChargerSensorSt.read, h]

/-- C5: once a gate or charger sensor's failed flag is set, it stays
set under every sequence of operations the code base can apply to the
sensor (reads with arbitrary draws, commanded state changes,
connect/disconnect/start/stop, fault injection), and every later read
reports the failure: `is_fault` is true, the gate value reads closed,
and a charger status reports `failed=True`, `charging=False`,
`power_kw=0`. -/
theorem claim5_sticky_failures :
    (∀ (s : GateSensorSt) (ops : List GateOp), s.is_failed = true →
      (s.applyOps ops).is_failed = true
      ∧ ∀ d, ((s.applyOps ops).read d).2.is_fault = true
        ∧ ((s.applyOps ops).read d).2.value = SensorValue.vbool false)
    ∧ (∀ (s : ChargerSensorSt) (ops : List ChargerOp), s.is_failed = true →
      (s.applyOps ops).is_failed = true
      ∧ ∀ d, ((s.applyOps ops).read d).2.is_fault = true
        ∧ ((s.applyOps ops).read d).2.value = SensorValue.vdict
            { connected := some (s.applyOps ops).is_connected,
              charging := some false, power_kw := some 0, failed := some true }) := by
  constructor
  · intro s ops h
    have hf := gateOps_keep_failed ops s h
    exact ⟨hf, fun d => gate_read_failed _ d hf⟩
  · intro s ops h
    have hf := chargerOps_keep_failed ops s h
    exact ⟨hf, fun d => charger_read_failed _ d hf⟩

/-- Witness for `claim5_sticky_failures`: after a set_state command and
a clean read, the failed gate still reads faulted; after a start_charging
command and a clean read, the failed charger still reports
failed/zero-power. -/
theorem claim5_sticky_failures_witness :
    gateFailedW.is_failed = true
    ∧ (gateFailedW.applyOps [GateOp.setState true, GateOp.read false]).is_failed = true
    ∧ ((chargerFailedW.applyOps [ChargerOp.startCharging 50, ChargerOp.read false]).read
        false).2.is_fault = true :=
  ⟨by decide,
    (claim5_sticky_failures.1 gateFailedW [GateOp.setState true, GateOp.read false]
      (by decide)).1,
    ((claim5_sticky_failures.2 chargerFailedW
      [ChargerOp.startCharging 50, ChargerOp.read false] (by decide)).2 false).1⟩

/-- C8 (counterexample): a readings map containing the malformed name
`gate_abc` makes the controller's step processing raise (`int("abc")`
is an uncaught `ValueError`), contradicting the claim that processing
always completes with unrecognized entries ignored. -/
theorem claim8_counterexample :
    processStep (DepotController.init 1 1 1) [(("gate_abc"), readingC8)]
      VehicleManager.empty 1 = Except.error () := by decide

/-- C8 (amended): entries whose name has an unknown prefix are skipped
without effect and without raising, and step processing completes for
every readings map in which each known-prefix name carries a numeric
id; but a known prefix with a non-numeric id raises. -/
theorem claim8_amended :
    (∀ (ds : DepotState) (name : String) (r : SensorReadingS)
        (rest : List (String × SensorReadingS)),
      pyStartsWith name.data ("gate_").data = false →
      pyStartsWith name.data ("spot_").data = false →
      pyStartsWith name.data ("charger_").data = false →
      updateDepotState ds ((name, r) :: rest) = updateDepotState ds rest)
    ∧ (∀ (rs : List (String × SensorReadingS)) (ds : DepotState),
        (∀ p ∈ rs, entryParses p = true) →
        ∃ ds1, updateDepotState ds rs = Except.ok ds1) := by
  constructor
  · intro ds name r rest h1 h2 h3
    conv_lhs => rw [updateDepotState]
    rw [h1, h2, h3]
    simp
  · intro rs
    induction rs with
    | nil => intro ds _; exact ⟨ds, rfl⟩
    | cons p rest ih =>
      intro ds hp
      obtain ⟨name, r⟩ := p
      have hhead := hp _ (List.mem_cons_self _ _)
      have htail : ∀ q ∈ rest, entryParses q = true :=
        fun q hq => hp q (List.mem_cons_of_mem _ hq)
      unfold entryParses at hhead
      unfold updateDepotState
      by_cases h1 : pyStartsWith name.data ("gate_").data = true
      · have hsome : (strToNat? ((splitChars '_' name.data).getD 1 [])).isSome = true := by
          rw [h1] at hhead
          simpa using hhead
        obtain ⟨n, hn⟩ := Option.isSome_iff_exists.mp hsome
        rw [h1, hn]
        simp only [if_true]
        exact ih _ htail
      · rw [Bool.not_eq_true] at h1
        by_cases h2 : pyStartsWith name.data ("spot_").data = true
        · have hsome : (strToNat? ((splitChars '_' name.data).getD 1 [])).isSome = true := by
            rw [h1, h2] at hhead
            simpa using hhead
          obtain ⟨n, hn⟩ := Option.isSome_iff_exists.mp hsome
          rw [h1, h2, hn]
          simp only [Bool.false_eq_true, if_false, if_true]
          exact ih _ htail
        · rw [Bool.not_eq_true] at h2
          by_cases h3 : pyStartsWith name.data ("charger_").data = true
          · have hsome : (strToNat? ((splitChars '_' name.data).getD 1 [])).isSome = true := by
              rw [h1, h2, h3] at hhead
              simpa using hhead
            obtain ⟨n, hn⟩ := Option.isSome_iff_exists.mp hsome
            rw [h1, h2, h3, hn]
            simp only [Bool.false_eq_true, if_false, if_true]
            cases r.value with
            | vdict d => exact ih _ htail
            | vbool b => exact ih _ htail
          · rw [Bool.not_eq_true] at h3
            rw [h1, h2, h3]
            simp only [Bool.false_eq_true, if_false]
            exact ih _ htail

/-- Witness for `claim8_amended`: an unknown-prefix entry is dropped,
and a map mixing a well-formed `gate_0` entry with an unknown-prefix
entry is processed without raising. -/
theorem claim8_amended_witness :
    updateDepotState (DepotController.init 1 1 1).depot_state [(("unknown_9"), readingC8)]
        = updateDepotState (DepotController.init 1 1 1).depot_state []
    ∧ ∃ ds1, updateDepotState (DepotController.init 1 1 1).depot_state
        [(("gate_0"), readingC8), (("unknown_9"), readingC8)] = Except.ok ds1 :=
  ⟨claim8_amended.1 (DepotController.init 1 1 1).depot_state ("unknown_9") readingC8 []
      (by decide) (by decide) (by decide),
    claim8_amended.2 [(("gate_0"), readingC8), (("unknown_9"), readingC8)]
      (DepotController.init 1 1 1).depot_state (by decide)⟩

theorem gateDecision_eq (c : DepotController) (m : VehicleManager) :
    ((decide (0 < (m.get_vehicles_by_state VehicleState.waiting).length)
      || decide (0 < (m.get_vehicles_by_state VehicleState.approaching).length))
     && canAdmitVehicle c.depot_state) = gateDecisionSpec c m := by
  unfold gateDecisionSpec canAdmitVehicle VehicleManager.get_vehicles_by_state
  rw [Bool.eq_iff_iff]
  simp only [Bool.and_eq_true, Bool.or_eq_true, decide_eq_true_eq,
    List.length_pos_iff_exists_mem, List.mem_filter, List.countP_pos_iff,
    Bool.not_eq_true']
  constructor
  · rintro ⟨hveh, hspot, hch⟩
    refine ⟨⟨?_, hspot⟩, hch⟩
    rcases hveh with ⟨v, hv, hs⟩ | ⟨v, hv, hs⟩
    · exact ⟨v, hv, Or.inl hs⟩
    · exact ⟨v, hv, Or.inr hs⟩
  · rintro ⟨⟨⟨v, hv, hs | hs⟩, hspot⟩, hch⟩
    · exact ⟨Or.inl ⟨v, hv, hs⟩, hspot, hch⟩
    · exact ⟨Or.inr ⟨v, hv, hs⟩, hspot, hch⟩

theorem filterMap_gate_eq (ds : DepotState) (dec : Bool) (step : Nat) (L : List Nat) :
    (L.filterMap (fun g =>
      if dec && !(gateStateAt ds g).truthy then
        some (createAction ("depot_controller") ("gate_control")
          ("gate_" ++ natToStr g) ("open") step)
      else if !dec && (gateStateAt ds g).truthy then
        some (createAction ("depot_controller") ("gate_control")
          ("gate_" ++ natToStr g) ("close") step)
      else none))
    = (L.filter (fun g => (gateStateAt ds g).truthy != dec)).map
        (fun g => gateActionSpec dec g step) := by
  induction L with
  | nil => rfl
  | cons g L ih =>
    rw [List.filterMap_cons, List.filter_cons]
    cases dec <;> cases hcur : (gateStateAt ds g).truthy <;>
      simp_all [gateActionSpec]

/-- C4: per step the controller computes one boolean gate decision —
open iff some vehicle is WAITING or APPROACHING and admission is
possible (a free spot and a non-failed charger, regardless of
connected/charging status) — and emits exactly one `gate_control`
action per gate whose reported state differs from the decision (an
`open` for closed gates when the decision is open, a `close` for open
gates when it is closed) and none for agreeing gates. -/
theorem claim4_gate_control (c : DepotController) (m : VehicleManager) (step : Nat) :
    controlGates c m step
      = ((List.range c.num_gates).filter
          (fun g => (gateStateAt c.depot_state g).truthy != gateDecisionSpec c m)).map
          (fun g => gateActionSpec (gateDecisionSpec c m) g step) := by
  unfold controlGates
  dsimp only
  rw [gateDecision_eq]
  exact filterMap_gate_eq c.depot_state (gateDecisionSpec c m) step
    (List.range c.num_gates)

theorem pyStartsWith_first_ne (c p : Char) (cs ps : List Char)
    (h : (c == p) = false) :
    pyStartsWith (c :: cs) (p :: ps) = false := by
  simp [pyStartsWith, h]

theorem prefixed_name_parse (pre : List Char) (i : Nat) (hpre : '_' ∉ pre) :
    strToNat? ((splitChars '_' (pre ++ '_' :: natChars i)).getD 1 []) = some i := by
  rw [splitChars_append _ _ _ hpre,
    splitChars_no_sep _ _ (fun hmem => natChars_ne_underscore i '_' hmem rfl)]
  simpa using strToNat_natChars i

theorem gate_name_data (i : Nat) :
    ("gate_" ++ natToStr i).data = ("gate").data ++ '_' :: natChars i := by
  rw [String.data_append]
  show ("gate_").data ++ natChars i = _
  have h : ("gate_").data = ("gate").data ++ ['_'] := by decide
  rw [h, List.append_assoc]
  rfl

theorem spot_name_data (i : Nat) :
    ("spot_" ++ natToStr i).data = ("spot").data ++ '_' :: natChars i := by
  rw [String.data_append]
  show ("spot_").data ++ natChars i = _
  have h : ("spot_").data = ("spot").data ++ ['_'] := by decide
  rw [h, List.append_assoc]
  rfl

theorem charger_name_data (i : Nat) :
    ("charger_" ++ natToStr i).data = ("charger").data ++ '_' :: natChars i := by
  rw [String.data_append]
  show ("charger_").data ++ natChars i = _
  have h : ("charger_").data = ("charger").data ++ ['_'] := by decide
  rw [h, List.append_assoc]
  rfl

theorem gate_name_starts (i : Nat) :
    pyStartsWith ("gate_" ++ natToStr i).data (("gate_").data) = true := by
  rw [String.data_append]
  exact pyStartsWith_append _ _

theorem spot_name_starts (i : Nat) :
    pyStartsWith ("spot_" ++ natToStr i).data (("spot_").data) = true := by
  rw [String.data_append]
  exact pyStartsWith_append _ _

theorem charger_name_starts (i : Nat) :
    pyStartsWith ("charger_" ++ natToStr i).data (("charger_").data) = true := by
  rw [String.data_append]
  exact pyStartsWith_append _ _

theorem spot_name_not_gate (i : Nat) :
    pyStartsWith ("spot_" ++ natToStr i).data (("gate_").data) = false := by
  rw [spot_name_data]
  have h1 : ("spot").data ++ '_' :: natChars i
      = 's' :: (("pot").data ++ '_' :: natChars i) := by rfl
  have h2 : ("gate_").data = 'g' :: ("ate_").data := by decide
  rw [h1, h2]
  exact pyStartsWith_first_ne 's' 'g' _ _ (by decide)

theorem charger_name_not_gate (i : Nat) :
    pyStartsWith ("charger_" ++ natToStr i).data (("gate_").data) = false := by
  rw [charger_name_data]
  have h1 : ("charger").data ++ '_' :: natChars i
      = 'c' :: (("harger").data ++ '_' :: natChars i) := by rfl
  have h2 : ("gate_").data = 'g' :: ("ate_").data := by decide
  rw [h1, h2]
  exact pyStartsWith_first_ne 'c' 'g' _ _ (by decide)

theorem charger_name_not_spot (i : Nat) :
    pyStartsWith ("charger_" ++ natToStr i).data (("spot_").data) = false := by
  rw [charger_name_data]
  have h1 : ("charger").data ++ '_' :: natChars i
      = 'c' :: (("harger").data ++ '_' :: natChars i) := by rfl
  have h2 : ("spot_").data = 's' :: ("pot_").data := by decide
  rw [h1, h2]
  exact pyStartsWith_first_ne 'c' 's' _ _ (by decide)

theorem gate_name_parse (i : Nat) :
    strToNat? ((splitChars '_' ("gate_" ++ natToStr i).data).getD 1 []) = some i := by
  rw [gate_name_data]
  exact prefixed_name_parse _ i (by decide)

theorem spot_name_parse (i : Nat) :
    strToNat? ((splitChars '_' ("spot_" ++ natToStr i).data).getD 1 []) = some i := by
  rw [spot_name_data]
  exact prefixed_name_parse _ i (by decide)

theorem charger_name_parse (i : Nat) :
    strToNat? ((splitChars '_' ("charger_" ++ natToStr i).data).getD 1 []) = some i := by
  rw [charger_name_data]
  exact prefixed_name_parse _ i (by decide)

theorem updateDepotState_quiet (rs : List (String × SensorReadingS)) :
    ∀ (ds : DepotState),
      (∀ p ∈ rs, QuietEntry p) →
      (∀ p ∈ ds.gate_states, p.2.truthy = false) →
      ∃ ds1, updateDepotState ds rs = Except.ok ds1
        ∧ ∀ p ∈ ds1.gate_states, p.2.truthy = false := by
  induction rs with
  | nil => intro ds _ hds; exact ⟨ds, rfl, hds⟩
  | cons p rest ih =>
    intro ds hq hds
    obtain ⟨name, r⟩ := p
    have hhead : QuietEntry (name, r) := hq _ (List.mem_cons_self _ _)
    have htail : ∀ q ∈ rest, QuietEntry q := fun q hq2 => hq q (List.mem_cons_of_mem _ hq2)
    unfold updateDepotState
    rcases hhead with ⟨i, hname, hval⟩ | ⟨i, hname⟩ | ⟨i, hname⟩
    · subst hname
      rw [gate_name_starts i, gate_name_parse i]
      simp only [if_true]
      exact ih _ htail
        (aset_forall _ _ _ (fun (sv : SensorValue) => sv.truthy = false) hds
          (by rw [show r.value = SensorValue.vbool false from hval]; rfl))
    · subst hname
      rw [spot_name_not_gate i, spot_name_starts i, spot_name_parse i]
      simp only [Bool.false_eq_true, if_false, if_true]
      exact ih _ htail hds
    · subst hname
      rw [charger_name_not_gate i, charger_name_not_spot i, charger_name_starts i,
        charger_name_parse i]
      simp only [Bool.false_eq_true, if_false, if_true]
      cases r.value with
      | vdict d => exact ih _ htail hds
      | vbool b => exact ih _ htail hds

theorem readAll_quiet (net : SensorNetworkS) (d : StepDraws)
    (hg : ∀ p ∈ net.gates, p.2.is_open = false) :
    (∀ p ∈ (net.read_all_sensors d).2, QuietEntry p)
    ∧ (∀ p ∈ (net.read_all_sensors d).1.gates, p.2.is_open = false) := by
  constructor
  · intro p hp
    unfold SensorNetworkS.read_all_sensors at hp
    simp only [List.mem_append, List.mem_map] at hp
    rcases hp with (⟨q2, ⟨q, hq, rfl⟩, rfl⟩ | ⟨q2, ⟨q, hq, rfl⟩, rfl⟩) | ⟨q2, ⟨q, hq, rfl⟩, rfl⟩
    · left
      refine ⟨q.2.gate_id, ?_, ?_⟩
      · cases d.gateFail q.1 <;> rfl
      · have hopen : q.2.is_open = false := hg q hq
        cases hdraw : d.gateFail q.1 <;> simp [GateSensorSt.read, hopen]
    · right; left
      exact ⟨q.2.spot_id, rfl⟩
    · right; right
      refine ⟨q.2.charger_id, ?_⟩
      cases d.chargerFail q.1 <;> rfl
  · intro p hp
    unfold SensorNetworkS.read_all_sensors at hp
    simp only [List.mem_map] at hp
    obtain ⟨q2, ⟨q, hq, rfl⟩, rfl⟩ := hp
    have hopen : q.2.is_open = false := hg q hq
    cases d.gateFail q.1 <;> simpa [GateSensorSt.read] using hopen

theorem gateStateAt_falsy (ds : DepotState)
    (hg : ∀ p ∈ ds.gate_states, p.2.truthy = false) (g : Nat) :
    (gateStateAt ds g).truthy = false := by
  unfold gateStateAt
  cases h : alookup ds.gate_states g with
  | none => rfl
  | some v => exact hg (g, v) (alookup_mem _ _ _ h)

theorem controlGates_quiet (c : DepotController) (m : VehicleManager) (step : Nat)
    (hm : m.vehicles = [])
    (hg : ∀ p ∈ c.depot_state.gate_states, p.2.truthy = false) :
    controlGates c m step = [] := by
  unfold controlGates VehicleManager.get_vehicles_by_state
  rw [hm]
  simp only [List.map_nil, List.filter_nil, List.length_nil]
  apply List.filterMap_eq_nil_iff.mpr
  intro g _
  rw [gateStateAt_falsy c.depot_state hg g]
  simp

theorem processStep_quiet (c : DepotController) (readings : List (String × SensorReadingS))
    (m : VehicleManager) (step : Nat)
    (hm : m.vehicles = [])
    (hq : ∀ p ∈ readings, QuietEntry p)
    (hg : ∀ p ∈ c.depot_state.gate_states, p.2.truthy = false) :
    ∃ c1, processStep c readings m step = Except.ok (c1, m, [])
      ∧ ∀ p ∈ c1.depot_state.gate_states, p.2.truthy = false := by
  obtain ⟨ds1, hds1, hds1g⟩ := updateDepotState_quiet readings c.depot_state hq hg
  refine ⟨{ c with depot_state := ds1 }, ?_, hds1g⟩
  unfold processStep
  rw [hds1]
  rw [hm]
  simp only [List.map_nil, List.foldl_nil]
  rw [controlGates_quiet _ _ _ hm hds1g]
  rfl

theorem alookup_map_isSome {α β : Type} (l : List (Nat × α)) (g : Nat × α → β)
    (k : Nat) :
    (alookup (l.map (fun p => (p.1, g p))) k).isSome = (alookup l k).isSome := by
  induction l with
  | nil => rfl
  | cons q rest ih =>
    obtain ⟨qk, qv⟩ := q
    by_cases h : qk = k <;> simp [alookup, h, ih]

theorem alookup_range_map_zero {α : Type} (n : Nat) (g : Nat → α) (hn : 0 < n) :
    alookup ((List.range n).map (fun i => (i, g i))) 0 = some (g 0) := by
  match n, hn with
  | m + 1, _ =>
    rw [List.range_succ_eq_map]
    simp [alookup]

theorem injectChargerFailure_quiet (cfg : SimulationConfig) (step : Nat)
    (net : SensorNetworkS)
    (h : cfg.charger_failure_step = none ∨ (alookup net.chargers 0).isSome = true) :
    ∃ net1, injectChargerFailure cfg step net = Except.ok net1
      ∧ net1.gates = net.gates
      ∧ (alookup net1.chargers 0).isSome = (alookup net.chargers 0).isSome := by
  unfold injectChargerFailure
  cases hcfg : cfg.charger_failure_step with
  | none => exact ⟨net, rfl, rfl, rfl⟩
  | some k =>
    dsimp only
    by_cases hif : k ≠ 0 ∧ step = k
    · rw [if_pos hif]
      rcases h with h | h
      · rw [hcfg] at h; cases h
      · obtain ⟨s, hs⟩ := Option.isSome_iff_exists.mp h
        rw [hs]
        refine ⟨_, rfl, rfl, ?_⟩
        rw [alookup_aset]
        simp [hs]
    · rw [if_neg hif]
      exact ⟨net, rfl, rfl, rfl⟩

theorem injectGateFailure_quiet (cfg : SimulationConfig) (step : Nat)
    (net : SensorNetworkS)
    (h : cfg.gate_failure_step = none ∨ (alookup net.gates 0).isSome = true)
    (hg : ∀ p ∈ net.gates, p.2.is_open = false) :
    ∃ net1, injectGateFailure cfg step net = Except.ok net1
      ∧ (∀ p ∈ net1.gates, p.2.is_open = false)
      ∧ net1.chargers = net.chargers
      ∧ (alookup net1.gates 0).isSome = (alookup net.gates 0).isSome := by
  unfold injectGateFailure
  cases hcfg : cfg.gate_failure_step with
  | none => exact ⟨net, rfl, hg, rfl, rfl⟩
  | some k =>
    dsimp only
    by_cases hif : k ≠ 0 ∧ step = k
    · rw [if_pos hif]
      rcases h with h | h
      · rw [hcfg] at h; cases h
      · obtain ⟨s, hs⟩ := Option.isSome_iff_exists.mp h
        rw [hs]
        refine ⟨_, rfl, ?_, rfl, ?_⟩
        · exact aset_forall _ _ _ (fun (g : GateSensorSt) => g.is_open = false) hg
            (hg _ (alookup_mem _ _ _ hs))
        · rw [alookup_aset]
          simp [hs]
    · rw [if_neg hif]
      exact ⟨net, rfl, hg, rfl, rfl⟩

theorem injectFailures_quiet (cfg : SimulationConfig) (step : Nat)
    (net : SensorNetworkS)
    (hch : cfg.charger_failure_step = none ∨ (alookup net.chargers 0).isSome = true)
    (hgt : cfg.gate_failure_step = none ∨ (alookup net.gates 0).isSome = true)
    (hg : ∀ p ∈ net.gates, p.2.is_open = false) :
    ∃ net1, injectFailures cfg step net = Except.ok net1
      ∧ (∀ p ∈ net1.gates, p.2.is_open = false)
      ∧ (alookup net1.chargers 0).isSome = (alookup net.chargers 0).isSome
      ∧ (alookup net1.gates 0).isSome = (alookup net.gates 0).isSome := by
  obtain ⟨netc, hc, hcg, hck⟩ := injectChargerFailure_quiet cfg step net hch
  have hgt2 : cfg.gate_failure_step = none ∨ (alookup netc.gates 0).isSome = true := by
    rcases hgt with h | h
    · exact Or.inl h
    · right; rw [hcg]; exact h
  have hg2 : ∀ p ∈ netc.gates, p.2.is_open = false := by
    rw [hcg]; exact hg
  obtain ⟨net1, hgate, hopen, hgc, hgk⟩ := injectGateFailure_quiet cfg step netc hgt2 hg2
  refine ⟨net1, ?_, hopen, ?_, ?_⟩
  · unfold injectFailures
    rw [hc]
    exact hgate
  · rw [hgc, hck]
  · rw [hgk, hcg]

theorem readAll_keys (net : SensorNetworkS) (d : StepDraws) :
    (alookup (net.read_all_sensors d).1.chargers 0).isSome
        = (alookup net.chargers 0).isSome
    ∧ (alookup (net.read_all_sensors d).1.gates 0).isSome
        = (alookup net.gates 0).isSome := by
  unfold SensorNetworkS.read_all_sensors
  dsimp only
  constructor
  · rw [alookup_map_isSome, alookup_map_isSome]
  · rw [alookup_map_isSome, alookup_map_isSome]

/-- The `KeyError` path of `_inject_failures` is live: with no
chargers configured but `charger_failure_step = 1`, the first step of
the run aborts with the uncaught exception (this is why
zero-arrival completion must assume the indexed sensors exist). -/
theorem runSteps_raises_on_missing_sensor :
    runSteps (SimulationEngine.init
      { num_gates := 1, num_spots := 1, num_chargers := 0, max_steps := 5,
        vehicle_arrival_rate := 0, charger_failure_step := some 1,
        gate_failure_step := none, noise_level := 0 }) [drawQuiet]
      = Except.error () := by decide

theorem runStep_quiet (e : SimulationEngine) (d : StepDraws)
    (hrate : e.config.vehicle_arrival_rate = 0) (hu : 0 ≤ d.arrival)
    (hinv : quietInv e) :
    ∃ e1, e.runStep d = Except.ok (e1, [])
      ∧ quietInv e1 ∧ e1.config = e.config := by
  obtain ⟨hveh, hgates, hctrl, hchkey, hgtkey⟩ := hinv
  obtain ⟨net1, hinj, hopen1, hck, hgk⟩ :=
    injectFailures_quiet e.config (e.current_step + 1) e.sensor_network hchkey hgtkey hgates
  have hgen : generateVehicles e.config (e.current_step + 1) d.arrival e.vehicle_manager
      = e.vehicle_manager := by
    unfold generateVehicles
    rw [hrate, if_neg (not_lt.mpr hu)]
  obtain ⟨hqr, hnetg⟩ := readAll_quiet net1 d hopen1
  have hm2 : (e.vehicle_manager.update_all_vehicles).vehicles = [] := by
    unfold VehicleManager.update_all_vehicles
    rw [hveh]
    rfl
  obtain ⟨c1, hps, hc1⟩ :=
    processStep_quiet e.controller (net1.read_all_sensors d).2
      (e.vehicle_manager.update_all_vehicles) (e.current_step + 1) hm2 hqr hctrl
  have hkeys := readAll_keys net1 d
  unfold SimulationEngine.runStep
  dsimp only
  rw [hinj]
  dsimp only
  rw [hgen, hps]
  refine ⟨_, rfl, ⟨hm2, hnetg, hc1, ?_, ?_⟩, rfl⟩
  · rcases hchkey with h | h
    · exact Or.inl h
    · right
      rw [hkeys.1, hck]
      exact h
  · rcases hgtkey with h | h
    · exact Or.inl h
    · right
      rw [hkeys.2, hgk]
      exact h

theorem runSteps_quiet (draws : List StepDraws) :
    ∀ (e : SimulationEngine), e.config.vehicle_arrival_rate = 0 →
      (∀ d ∈ draws, 0 ≤ d.arrival) → quietInv e →
      ∃ e1, runSteps e draws = Except.ok (e1, []) ∧ quietInv e1 := by
  induction draws with
  | nil => intro e _ _ hinv; exact ⟨e, rfl, hinv⟩
  | cons d ds ih =>
    intro e hrate hu hinv
    obtain ⟨e1, hstep, hinv1, hcfg⟩ :=
      runStep_quiet e d hrate (hu d (List.mem_cons_self _ _)) hinv
    obtain ⟨e2, hrest, hinv2⟩ :=
      ih e1 (by rw [hcfg, hrate]) (fun q hq => hu q (List.mem_cons_of_mem _ hq)) hinv1
    refine ⟨e2, ?_, hinv2⟩
    unfold runSteps
    rw [hstep]
    dsimp only
    rw [hrest]
    rfl

/-- C9: with `vehicle_arrival_rate = 0` and an empty initial state —
and any configured failure-injection step pointing at an existing
sensor (`chargers[0]` / `gates[0]` present, i.e. the count positive),
so that `_inject_failures` does not raise `KeyError` and abort the run
mid-way — a run of any length (any sequence of per-step draws, the
uniform arrival draws being non-negative as `random.random()`
guarantees) completes without error, produces no control action at
all, and ends with an empty vehicle registry. -/
theorem claim9_no_arrivals_no_actions (cfg : SimulationConfig)
    (hrate : cfg.vehicle_arrival_rate = 0)
    (hch : cfg.charger_failure_step = none ∨ 0 < cfg.num_chargers)
    (hgt : cfg.gate_failure_step = none ∨ 0 < cfg.num_gates)
    (draws : List StepDraws)
    (hu : ∀ d ∈ draws, 0 ≤ d.arrival) :
    ∃ e1, runSteps (SimulationEngine.init cfg) draws = Except.ok (e1, [])
      ∧ e1.vehicle_manager.vehicles = [] := by
  have hinv : quietInv (SimulationEngine.init cfg) := by
    refine ⟨rfl, ?_, ?_, ?_, ?_⟩
    · intro p hp
      simp only [SimulationEngine.init, SensorNetworkS.init, List.mem_map] at hp
      obtain ⟨i, _, rfl⟩ := hp
      rfl
    · intro p hp
      simp only [SimulationEngine.init, DepotController.init, List.mem_map] at hp
      obtain ⟨i, _, rfl⟩ := hp
      rfl
    · rcases hch with h | h
      · exact Or.inl h
      · right
        show (alookup ((List.range cfg.num_chargers).map
            (fun i => (i, ({ charger_id := i, is_connected := false,
                             is_charging := false, is_failed := false,
                             power_output := 0 } : ChargerSensorSt)))) 0).isSome = true
        rw [alookup_range_map_zero _ _ h]
        rfl
    · rcases hgt with h | h
      · exact Or.inl h
      · right
        show (alookup ((List.range cfg.num_gates).map
            (fun i => (i, ({ gate_id := i, is_open := false,
                             is_failed := false } : GateSensorSt)))) 0).isSome = true
        rw [alookup_range_map_zero _ _ h]
        rfl
  obtain ⟨e1, h, hq⟩ := runSteps_quiet draws (SimulationEngine.init cfg) hrate hu hinv
  exact ⟨e1, h, hq.1⟩

/-- Witness for `claim9_no_arrivals_no_actions` on a two-step run. -/
theorem claim9_no_arrivals_no_actions_witness :
    ∃ e1, runSteps (SimulationEngine.init cfgC9) [drawQuiet, drawQuiet]
        = Except.ok (e1, []) ∧ e1.vehicle_manager.vehicles = [] :=
  claim9_no_arrivals_no_actions cfgC9 rfl (Or.inl rfl) (Or.inl rfl)
    [drawQuiet, drawQuiet]
    (by
      intro d hd
      rcases List.mem_cons.mp hd with rfl | hd
      · decide
      · rcases List.mem_cons.mp hd with rfl | hd
        · decide
        · cases hd)

end DepotHIL
